import Mathlib

/-!
# Fleet maintenance: due status and urgency

A shallow embedding of the maintenance-status code of the fleet tracker
(`src/components/TruckCard.jsx`, `src/pages/TruckList.jsx`,
`src/pages/Dashboard.jsx`, `src/pages/TruckDetail.jsx`), of the editors
(`src/components/MaintenanceForm.jsx`, the handlers of `TruckDetail.jsx`) and
of `getLatestMaintenance` of `src/components/QRCodePrint.jsx`, together with
the properties proved about it.

Conventions of the embedding.

* A numeric field of a truck row or of a maintenance record is a `JsNum`:
  the key may be missing (`undefined`), hold `null`, or hold an integer.
  `nan` only arises from arithmetic.  Truthiness, `||`, `+`, `-` and the
  comparisons follow JavaScript: `undefined` converts to `NaN`, `null` to `0`,
  every comparison with `NaN` is false.
* A date field is a `JsDate`: absent (any falsy value), a string that does not
  parse (`new Date` gives an Invalid Date, every `isAfter`/`isBefore` with it
  is false), or a string that parses to a time in milliseconds.
* The wall clock `new Date()` is the explicit argument `now` (milliseconds);
  `addDays` adds whole days of 86400000 ms.
* `Array.prototype.sort` is the stable sort `jsSort`; a comparator returns a
  `JsNum`, read through `JsNum.compareValue`.
* `Math.round(x * 1.60934)` and `Math.round(x / 1.60934)` are computed in
  exact rational arithmetic with the factor `160934 / 100000`.
* An editor handler is the function from the truck and the parsed form input
  to the truck as stored afterwards; a rejected input leaves the truck as it
  was.
* The functions take the truck row itself; the `if (!truck) return ...` guards
  of the source concern a missing row and are not part of the embedding.
* Presentation fields of the returned objects (`color`, the formatted `date`
  and `mileage` strings) are left out; that `format` of date-fns raises on an
  Invalid Date is kept (`dateFormat`).
-/

/-! ## JavaScript values -/

/-- Numeric value as JavaScript sees it. -/
inductive JsNum where
  | undefined
  | null
  | nan
  | num (n : Int)
deriving DecidableEq, Repr

namespace JsNum

/-- Truthiness: only a non-zero number is truthy. -/
def truthy : JsNum → Bool
  | num n => n != 0
  | _ => false

/-- Conversion `ToNumber`; `none` stands for `NaN`. -/
def toNumber : JsNum → Option Int
  | undefined => none
  | null => some 0
  | nan => none
  | num n => some n

/-- Result of an arithmetic operation as a value. -/
def ofNumber : Option Int → JsNum
  | none => nan
  | some n => num n

/-- Operator `a || b`. -/
def or (a b : JsNum) : JsNum := if a.truthy then a else b

/-- Operator `a + b` on numeric operands. -/
def add (a b : JsNum) : JsNum :=
  match a.toNumber, b.toNumber with
  | some x, some y => num (x + y)
  | _, _ => nan

/-- Operator `a - b`. -/
def sub (a b : JsNum) : JsNum :=
  match a.toNumber, b.toNumber with
  | some x, some y => num (x - y)
  | _, _ => nan

/-- Operator `a >= b`. -/
def ge (a b : JsNum) : Bool :=
  match a.toNumber, b.toNumber with
  | some x, some y => decide (y ≤ x)
  | _, _ => false

/-- Operator `a > b`. -/
def gt (a b : JsNum) : Bool :=
  match a.toNumber, b.toNumber with
  | some x, some y => decide (y < x)
  | _, _ => false

/-- Operator `a < b`. -/
def lt (a b : JsNum) : Bool :=
  match a.toNumber, b.toNumber with
  | some x, some y => decide (x < y)
  | _, _ => false

end JsNum

/-- Date field of a row: absent, unparseable, or a time in milliseconds. -/
inductive JsDate where
  | absent
  | invalid
  | valid (t : Int)
deriving DecidableEq, Repr

namespace JsDate

/-- Truthiness of the field. -/
def truthy : JsDate → Bool
  | absent => false
  | _ => true

/-- Time value of `new Date(field)`; `none` is an Invalid Date. -/
def newDate : JsDate → Option Int
  | valid t => some t
  | _ => none

end JsDate

/-- Function `isAfter(a, b)` of date-fns: `a` is later than `b`. -/
def isAfter (a b : Option Int) : Bool :=
  match a, b with
  | some x, some y => decide (y < x)
  | _, _ => false

/-- Function `isBefore(a, b)` of date-fns: `a` is earlier than `b`. -/
def isBefore (a b : Option Int) : Bool :=
  match a, b with
  | some x, some y => decide (x < y)
  | _, _ => false

/-- Milliseconds in a day. -/
def msPerDay : Int := 86400000

/-- Function `addDays(date, n)` of date-fns. -/
def addDays (date : Int) (n : Int) : Int := date + n * msPerDay

/-- Function `format(date, pattern)` of date-fns: it raises a `RangeError` on
an Invalid Date; the text it returns otherwise is not modelled. -/
def dateFormat (date : Option Int) : Except String Unit :=
  match date with
  | none => .error "RangeError: Invalid time value"
  | some _ => .ok ()

/-- Value of a comparator result inside `Array.prototype.sort`: the result is
converted to a number and `NaN` counts as `0`. -/
def JsNum.compareValue (v : JsNum) : Int :=
  match v.toNumber with
  | some n => n
  | none => 0

/-- Method `Array.prototype.sort(compareFn)` on a copy of the array. The sort
is stable and puts `a` before `b` when `compareFn(a, b) < 0`; for a consistent
comparator the result is the one stable sorted arrangement, computed here by
insertion (an element goes before the first one it does not compare greater
than). -/
def jsSort {α : Type} (compareFn : α → α → JsNum) (l : List α) : List α :=
  l.insertionSort (fun a b => (compareFn a b).compareValue ≤ 0)

/-- Difference `a - b` of two `Date` objects; an Invalid Date gives `NaN`. -/
def dateSub (a b : Option Int) : JsNum :=
  match a, b with
  | some x, some y => .num (x - y)
  | _, _ => .nan

/-! ## Data model -/

/-- One entry of `truck.maintenanceHistory`. -/
structure MaintenanceRecord where
  type : String
  date : JsDate
  mileage : JsNum
  nextDate : JsDate
deriving DecidableEq, Repr

/-- Truck row as read from the store. -/
structure Truck where
  distanceUnit : Option String
  currentMileage : JsNum
  oilChangeMileageInterval : JsNum
  airFilterMileageInterval : JsNum
  fuelFilterMileageInterval : JsNum
  dpfCleaningMileageInterval : JsNum
  safetyInspectionDate : JsDate
  safetyInspectionExpiryDate : JsDate
  year : JsNum
  maintenanceHistory : Option (List MaintenanceRecord)
deriving DecidableEq, Repr

/-- Status strings returned by the evaluators. -/
inductive Status where
  | unknown
  | due
  | approaching
  | ok
deriving DecidableEq, Repr

/-- Field `nextMileage` of a status object: a raw value (or a missing key,
`value undefined`), the `toLocaleString()` rendering of a number, or `'N/A'`. -/
inductive NextMileage where
  | value (v : JsNum)
  | text (n : JsNum)
  | na
deriving DecidableEq, Repr

/-- Object returned by `getMaintenanceStatus`. -/
structure MaintenanceStatus where
  status : Status
  nextMileage : NextMileage
  overdueMileage : JsNum
deriving DecidableEq, Repr

/-- Expression `!truck.maintenanceHistory || truck.maintenanceHistory.length === 0`. -/
def Truck.noHistory (truck : Truck) : Bool :=
  match truck.maintenanceHistory with
  | none => true
  | some h => h.length == 0

/-- Expression `truck.maintenanceHistory?.find(r => r.type === type)`. -/
def Truck.findRecord (truck : Truck) (type : String) : Option MaintenanceRecord :=
  match truck.maintenanceHistory with
  | none => none
  | some h => h.find? (fun r => r.type == type)

/-! ## `TruckCard.jsx` -/

namespace TruckCard

/-- Line 9: `truck.distanceUnit || 'miles'`. -/
def distanceUnit (truck : Truck) : String :=
  match truck.distanceUnit with
  | some s => if s = "" then "miles" else s
  | none => "miles"

/-- Lines 11-29. -/
def isMaintenanceDue (now : Int) (truck : Truck) (date : JsDate) (mileage : JsNum) : Bool :=
  if !date.truthy && !mileage.truthy then false
  else
    let dateDue := if date.truthy then isAfter (some now) date.newDate else false
    let mileageDue :=
      if mileage.truthy && truck.currentMileage.truthy then truck.currentMileage.ge mileage
      else false
    dateDue || mileageDue

/-- Lines 31-40. -/
def isMileageApproachingDue (truck : Truck) (lastMileage interval : JsNum) : Bool :=
  if !lastMileage.truthy || !interval.truthy || !truck.currentMileage.truthy then false
  else
    let nextDueMileage := lastMileage.add interval
    let approachingThreshold : JsNum :=
      if distanceUnit truck = "miles" then .num 500 else .num 800
    (truck.currentMileage.add approachingThreshold).ge nextDueMileage
      && truck.currentMileage.lt nextDueMileage

/-- Lines 45-55: the interval used for a maintenance type. -/
def intervalFor (truck : Truck) (type : String) : JsNum :=
  if type = "oil" then truck.oilChangeMileageInterval.or (.num 5000)
  else if type = "airFilter" then truck.airFilterMileageInterval.or (.num 15000)
  else if type = "fuelFilter" then truck.fuelFilterMileageInterval.or (.num 25000)
  else if type = "dpfCleaning" then truck.dpfCleaningMileageInterval.or (.num 100000)
  else .num 0

/-- Lines 42-109. -/
def getMaintenanceStatus (now : Int) (truck : Truck) (type : String) : MaintenanceStatus :=
  let interval := intervalFor truck type
  match truck.findRecord type with
  | none =>
    if interval.gt (.num 0) then
      { status := .due
        nextMileage := .value truck.currentMileage
        overdueMileage := truck.currentMileage }
    else
      { status := .unknown, nextMileage := .value .undefined, overdueMileage := .undefined }
  | some maintenance =>
    let nextMileage : JsNum :=
      if interval.gt (.num 0) && maintenance.mileage.truthy then maintenance.mileage.add interval
      else .null
    let overdueMileage : JsNum :=
      if nextMileage.truthy && truck.currentMileage.gt nextMileage then
        truck.currentMileage.sub nextMileage
      else .num 0
    let isDue := isMaintenanceDue now truck maintenance.nextDate nextMileage
    let isApproachingDue :=
      interval.gt (.num 0) && !isDue && isMileageApproachingDue truck maintenance.mileage interval
    { status := if isDue then .due else if isApproachingDue then .approaching else .ok
      nextMileage := if nextMileage.truthy then .text nextMileage else .na
      overdueMileage := overdueMileage }

/-- Lines 111-144. The call may raise: the returned object holds, besides
`status`, the `format(new Date(...), 'MMM d, yyyy')` of each of the two dates
that is present (lines 141-142, in this order), and `format` raises on an
Invalid Date. -/
def getSafetyInspectionStatus (now : Int) (truck : Truck) : Except String Status :=
  if !truck.safetyInspectionDate.truthy && !truck.safetyInspectionExpiryDate.truthy then
    .ok .unknown
  else
    let status : Status :=
      if truck.safetyInspectionExpiryDate.truthy then
        if isAfter (some now) truck.safetyInspectionExpiryDate.newDate then .due
        else if isBefore truck.safetyInspectionExpiryDate.newDate (some (addDays now 30)) then
          .approaching
        else .ok
      else .ok
    match (if truck.safetyInspectionDate.truthy then
        dateFormat truck.safetyInspectionDate.newDate else .ok ()) with
    | .error e => .error e
    | .ok _ =>
      match (if truck.safetyInspectionExpiryDate.truthy then
          dateFormat truck.safetyInspectionExpiryDate.newDate else .ok ()) with
      | .error e => .error e
      | .ok _ => .ok status

end TruckCard

/-! ## `TruckList.jsx` -/

namespace TruckList

/-- Lines 41-46 (and 92-97): a falsy interval is replaced by the default of
the type, when the type has one. -/
def effectiveInterval (type : String) (interval : JsNum) : JsNum :=
  if !interval.truthy then
    if type = "oil" then .num 5000
    else if type = "airFilter" then .num 15000
    else if type = "fuelFilter" then .num 25000
    else if type = "dpfCleaning" then .num 100000
    else interval
  else interval

/-- Lines 37-85. -/
def checkMaintenanceTypeDue (now : Int) (truck : Truck) (type : String) (interval : JsNum) :
    Bool :=
  let interval := effectiveInterval type interval
  if !interval.truthy then false
  else if truck.noHistory then true
  else
    match truck.findRecord type with
    | none => true
    | some record =>
      if record.nextDate.truthy && isAfter (some now) record.nextDate.newDate then true
      else if truck.currentMileage.truthy && record.mileage.truthy
          && truck.currentMileage.ge (record.mileage.add interval) then true
      else false

/-- Lines 88-138. -/
def isMaintenanceApproachingDue (now : Int) (truck : Truck) (type : String)
    (interval : JsNum) : Bool :=
  let interval := effectiveInterval type interval
  if !interval.truthy then false
  else if checkMaintenanceTypeDue now truck type interval then false
  else
    match truck.findRecord type with
    | none => false
    | some record =>
      if record.nextDate.truthy
          && isAfter (some (addDays now 14)) record.nextDate.newDate
          && isAfter record.nextDate.newDate (some now) then true
      else
        let approachingThreshold : JsNum :=
          if truck.distanceUnit = some "miles" then .num 500 else .num 800
        if truck.currentMileage.truthy && record.mileage.truthy
            && (truck.currentMileage.add approachingThreshold).ge (record.mileage.add interval)
            && truck.currentMileage.lt (record.mileage.add interval) then true
        else false

/-- Lines 141-151. -/
def isSafetyInspectionDue (now : Int) (truck : Truck) : Bool :=
  if !truck.safetyInspectionExpiryDate.truthy then
    (if truck.year.truthy then true else false)
  else isAfter (some now) truck.safetyInspectionExpiryDate.newDate

/-- Lines 154-165. -/
def isSafetyInspectionApproachingDue (now : Int) (truck : Truck) : Bool :=
  if !truck.safetyInspectionExpiryDate.truthy || isSafetyInspectionDue now truck then false
  else
    isAfter (some (addDays now 30)) truck.safetyInspectionExpiryDate.newDate
      && isAfter truck.safetyInspectionExpiryDate.newDate (some now)

/-- Lines 168-193; the score is accumulated statement by statement. -/
def getUrgencyScore (now : Int) (truck : Truck) : Nat :=
  let score := 0
  let score :=
    if checkMaintenanceTypeDue now truck "oil" truck.oilChangeMileageInterval
    then score + 100 else score
  let score :=
    if checkMaintenanceTypeDue now truck "airFilter" truck.airFilterMileageInterval
    then score + 90 else score
  let score :=
    if checkMaintenanceTypeDue now truck "fuelFilter" truck.fuelFilterMileageInterval
    then score + 80 else score
  let score :=
    if checkMaintenanceTypeDue now truck "dpfCleaning" truck.dpfCleaningMileageInterval
    then score + 70 else score
  let score := if isSafetyInspectionDue now truck then score + 110 else score
  let score :=
    if isMaintenanceApproachingDue now truck "oil" truck.oilChangeMileageInterval
    then score + 50 else score
  let score :=
    if isMaintenanceApproachingDue now truck "airFilter" truck.airFilterMileageInterval
    then score + 45 else score
  let score :=
    if isMaintenanceApproachingDue now truck "fuelFilter" truck.fuelFilterMileageInterval
    then score + 40 else score
  let score :=
    if isMaintenanceApproachingDue now truck "dpfCleaning" truck.dpfCleaningMileageInterval
    then score + 35 else score
  let score := if isSafetyInspectionApproachingDue now truck then score + 55 else score
  let score := if truck.noHistory then score + 60 else score
  score

/-- Lines 237-247: the interval `getOverdueMileage` uses for a type. -/
def overdueInterval (truck : Truck) (type : String) : JsNum :=
  if type = "oil" then truck.oilChangeMileageInterval.or (.num 5000)
  else if type = "airFilter" then truck.airFilterMileageInterval.or (.num 15000)
  else if type = "fuelFilter" then truck.fuelFilterMileageInterval.or (.num 25000)
  else if type = "dpfCleaning" then truck.dpfCleaningMileageInterval.or (.num 100000)
  else .num 0

/-- Lines 234-272. -/
def getOverdueMileage (truck : Truck) (type : String) : JsNum :=
  if !truck.currentMileage.truthy then .num 0
  else
    let interval := overdueInterval truck type
    if !interval.truthy then .num 0
    else if truck.noHistory then truck.currentMileage
    else
      match truck.findRecord type with
      | none => truck.currentMileage
      | some record =>
        let nextDueMileage := record.mileage.add interval
        if truck.currentMileage.ge nextDueMileage then truck.currentMileage.sub nextDueMileage
        else .num 0

/-- Lines 199-221: the part of the per-type score that comes from the due
and approaching checks. -/
def typeContribution (now : Int) (truck : Truck) (type : String) : Nat :=
  let score := 0
  if type = "oil" then
    let score :=
      if checkMaintenanceTypeDue now truck "oil" truck.oilChangeMileageInterval
      then score + 100 else score
    if isMaintenanceApproachingDue now truck "oil" truck.oilChangeMileageInterval
    then score + 50 else score
  else if type = "airFilter" then
    let score :=
      if checkMaintenanceTypeDue now truck "airFilter" truck.airFilterMileageInterval
      then score + 100 else score
    if isMaintenanceApproachingDue now truck "airFilter" truck.airFilterMileageInterval
    then score + 50 else score
  else if type = "fuelFilter" then
    let score :=
      if checkMaintenanceTypeDue now truck "fuelFilter" truck.fuelFilterMileageInterval
      then score + 100 else score
    if isMaintenanceApproachingDue now truck "fuelFilter" truck.fuelFilterMileageInterval
    then score + 50 else score
  else if type = "dpfCleaning" then
    let score :=
      if checkMaintenanceTypeDue now truck "dpfCleaning" truck.dpfCleaningMileageInterval
      then score + 100 else score
    if isMaintenanceApproachingDue now truck "dpfCleaning" truck.dpfCleaningMileageInterval
    then score + 50 else score
  else if type = "safetyInspection" then
    let score := if isSafetyInspectionDue now truck then score + 100 else score
    if isSafetyInspectionApproachingDue now truck then score + 50 else score
  else score

/-- Lines 196-231. -/
def getMaintenanceTypeUrgencyScore (now : Int) (truck : Truck) (type : String) : Nat :=
  let score := typeContribution now truck type
  if truck.noHistory then score + 60
  else if (truck.findRecord type).isNone && type != "safetyInspection" then score + 60
  else score

/-- Lines 279-283 (and 393-396, 400-403): the truck's interval field handed
to the checks for a type, `0` for any other type. -/
def sortInterval (truck : Truck) (type : String) : JsNum :=
  if type = "oil" then truck.oilChangeMileageInterval
  else if type = "airFilter" then truck.airFilterMileageInterval
  else if type = "fuelFilter" then truck.fuelFilterMileageInterval
  else if type = "dpfCleaning" then truck.dpfCleaningMileageInterval
  else .num 0

/-- Lines 275-287. -/
def isMaintenanceOverdue (now : Int) (truck : Truck) (type : String) : Bool :=
  if type = "safetyInspection" then isSafetyInspectionDue now truck
  else checkMaintenanceTypeDue now truck type (sortInterval truck type)

/-- Lines 290-295: `null` (here `none`) or a `Date` object, which may be an
Invalid Date (`some none`). -/
def getSafetyInspectionExpiryDate (truck : Truck) : Option (Option Int) :=
  if !truck.safetyInspectionExpiryDate.truthy then none
  else some truck.safetyInspectionExpiryDate.newDate

/-- Line 313: comparator of the aggregate ranking. -/
def compareUrgency (now : Int) (a b : Truck) : JsNum :=
  .num ((getUrgencyScore now b : Int) - (getUrgencyScore now a : Int))

/-- Lines 317-364: comparator of the safety-inspection ranking. A `Date`
object is truthy even when it is an Invalid Date. -/
def compareSafetyInspection (now : Int) (a b : Truck) : JsNum :=
  let aHasInspection := a.safetyInspectionExpiryDate.truthy
  let bHasInspection := b.safetyInspectionExpiryDate.truthy
  if !aHasInspection && bHasInspection then .num (-1)
  else if aHasInspection && !bHasInspection then .num 1
  else if !aHasInspection && !bHasInspection then
    (b.year.or (.num 0)).sub (a.year.or (.num 0))
  else
    let aExpired := isSafetyInspectionDue now a
    let bExpired := isSafetyInspectionDue now b
    if aExpired && !bExpired then .num (-1)
    else if !aExpired && bExpired then .num 1
    else
      match (if aExpired && bExpired then
          (match getSafetyInspectionExpiryDate a, getSafetyInspectionExpiryDate b with
            | some aExpiryDate, some bExpiryDate => some (dateSub aExpiryDate bExpiryDate)
            | _, _ => none)
        else none) with
      | some result => result
      | none =>
        let aApproaching := isSafetyInspectionApproachingDue now a
        let bApproaching := isSafetyInspectionApproachingDue now b
        if aApproaching && !bApproaching then .num (-1)
        else if !aApproaching && bApproaching then .num 1
        else
          match getSafetyInspectionExpiryDate a, getSafetyInspectionExpiryDate b with
          | some aExpiryDate, some bExpiryDate => dateSub aExpiryDate bExpiryDate
          | _, _ =>
            .num ((getMaintenanceTypeUrgencyScore now b "safetyInspection" : Int)
              - (getMaintenanceTypeUrgencyScore now a "safetyInspection" : Int))

/-- Lines 368-411: comparator of the ranking by one maintenance type. -/
def compareMaintenanceType (now : Int) (sortByType : String) (a b : Truck) : JsNum :=
  let aOverdue := isMaintenanceOverdue now a sortByType
  let bOverdue := isMaintenanceOverdue now b sortByType
  if aOverdue && !bOverdue then .num (-1)
  else if !aOverdue && bOverdue then .num 1
  else
    let scoreA := getMaintenanceTypeUrgencyScore now a sortByType
    let scoreB := getMaintenanceTypeUrgencyScore now b sortByType
    if scoreA ≠ scoreB then .num ((scoreB : Int) - (scoreA : Int))
    else if aOverdue && bOverdue then
      let overdueA := getOverdueMileage a sortByType
      let overdueB := getOverdueMileage b sortByType
      overdueB.sub overdueA
    else
      let aApproaching :=
        isMaintenanceApproachingDue now a sortByType (sortInterval a sortByType)
      let bApproaching :=
        isMaintenanceApproachingDue now b sortByType (sortInterval b sortByType)
      if aApproaching && !bApproaching then .num (-1)
      else if !aApproaching && bApproaching then .num 1
      else (b.currentMileage.or (.num 0)).sub (a.currentMileage.or (.num 0))

/-- Lines 310-416: the list shown, for the sort state `sortByType`,
`sortByUrgency`. -/
def sortedTrucks (now : Int) (sortByType : String) (sortByUrgency : Bool)
    (filteredTrucks : List Truck) : List Truck :=
  if sortByType = "all" && sortByUrgency then jsSort (compareUrgency now) filteredTrucks
  else if sortByType = "safetyInspection" then
    jsSort (compareSafetyInspection now) filteredTrucks
  else if sortByType ≠ "all" then jsSort (compareMaintenanceType now sortByType) filteredTrucks
  else filteredTrucks

end TruckList

/-! ## `Dashboard.jsx` -/

namespace Dashboard

/-- Lines 134-185; `twoWeeksFromNow` is `now` with its day of the month moved
on by 14. -/
def checkMaintenanceTypeDue (now : Int) (truck : Truck) (type : String) (interval : JsNum) :
    Bool :=
  let interval := TruckList.effectiveInterval type interval
  if !interval.truthy then false
  else if truck.noHistory then true
  else
    match truck.findRecord type with
    | none => true
    | some record =>
      if record.nextDate.truthy
          && (isAfter (some now) record.nextDate.newDate
            || (isAfter (some (addDays now 14)) record.nextDate.newDate
              && isAfter record.nextDate.newDate (some now))) then true
      else
        let approachingThreshold : JsNum :=
          if truck.distanceUnit = some "miles" then .num 500 else .num 800
        if truck.currentMileage.truthy && record.mileage.truthy
            && ((truck.currentMileage.add approachingThreshold).ge (record.mileage.add interval)
              || truck.currentMileage.ge (record.mileage.add interval)) then true
        else false

/-- Lines 85-131. -/
def checkTruckMaintenanceDue (now : Int) (truck : Truck) : Bool :=
  if truck.noHistory
      && (truck.oilChangeMileageInterval.truthy || truck.airFilterMileageInterval.truthy
        || truck.fuelFilterMileageInterval.truthy || truck.dpfCleaningMileageInterval.truthy)
  then true
  else if checkMaintenanceTypeDue now truck "oil" truck.oilChangeMileageInterval then true
  else if checkMaintenanceTypeDue now truck "airFilter" truck.airFilterMileageInterval then true
  else if checkMaintenanceTypeDue now truck "fuelFilter" truck.fuelFilterMileageInterval then true
  else if checkMaintenanceTypeDue now truck "dpfCleaning" truck.dpfCleaningMileageInterval
  then true
  else if truck.safetyInspectionExpiryDate.truthy then
    (if isAfter (some now) truck.safetyInspectionExpiryDate.newDate
        || (isAfter (some (addDays now 30)) truck.safetyInspectionExpiryDate.newDate
          && isAfter truck.safetyInspectionExpiryDate.newDate (some now)) then true
    else false)
  else if truck.year.truthy then true
  else false

end Dashboard

/-! ## `TruckDetail.jsx` -/

namespace TruckDetail

/-- Lines 426-435: the interval used for a maintenance type, with the default
of the truck's distance unit. -/
def intervalFor (truck : Truck) (type : String) : JsNum :=
  if type = "oil" then
    truck.oilChangeMileageInterval.or
      (if truck.distanceUnit = some "miles" then .num 5000 else .num 8000)
  else if type = "airFilter" then
    truck.airFilterMileageInterval.or
      (if truck.distanceUnit = some "miles" then .num 15000 else .num 24000)
  else if type = "fuelFilter" then
    truck.fuelFilterMileageInterval.or
      (if truck.distanceUnit = some "miles" then .num 25000 else .num 40000)
  else if type = "dpfCleaning" then
    truck.dpfCleaningMileageInterval.or
      (if truck.distanceUnit = some "miles" then .num 100000 else .num 160000)
  else .num 0

/-- Lines 420-494; `today > nextDate` compares the two time values. -/
def getMaintenanceStatus (now : Int) (truck : Truck) (type : String) : MaintenanceStatus :=
  match truck.maintenanceHistory with
  | none => { status := .unknown, nextMileage := .value .undefined, overdueMileage := .undefined }
  | some history =>
    let interval := intervalFor truck type
    match history.find? (fun m => m.type == type) with
    | none =>
      if interval.gt (.num 0) then
        { status := .due
          nextMileage := .value truck.currentMileage
          overdueMileage := .undefined }
      else
        { status := .unknown, nextMileage := .value .undefined, overdueMileage := .undefined }
    | some maintenance =>
      let nextMileage : JsNum :=
        if interval.gt (.num 0) && maintenance.mileage.truthy then
          maintenance.mileage.add interval
        else .null
      let isDue := false
      let isDue :=
        if maintenance.nextDate.truthy && isAfter (some now) maintenance.nextDate.newDate
        then true else isDue
      let isDue :=
        if nextMileage.truthy && truck.currentMileage.ge nextMileage then true else isDue
      let approachingThreshold : JsNum :=
        if truck.distanceUnit = some "miles" then .num 500 else .num 800
      let isApproachingDue :=
        interval.gt (.num 0) && !isDue && nextMileage.truthy
          && (truck.currentMileage.add approachingThreshold).ge nextMileage
          && truck.currentMileage.lt nextMileage
      { status := if isDue then .due else if isApproachingDue then .approaching else .ok
        nextMileage := .value nextMileage
        overdueMileage := .undefined }

end TruckDetail

/-! ## Unit conversion and the editors -/

/-- `Math.round` of the rational `num / den` (`den > 0`) in exact arithmetic:
the nearest integer, a half rounding up. -/
def mathRound (num den : Int) : Int := (2 * num + den) / (2 * den)

/-- `Math.round(x * 1.60934)`, the factor read as the rational `160934 / 100000`. -/
def convertMilesToKm (x : Int) : Int := mathRound (x * 160934) 100000

/-- `Math.round(x / 1.60934)`, the factor read as the rational `160934 / 100000`. -/
def convertKmToMiles (x : Int) : Int := mathRound (x * 100000) 160934

/-- `Math.round(v * conversionFactor)` on a field. -/
def JsNum.roundTimesFactor (v : JsNum) : JsNum :=
  match v.toNumber with
  | some n => .num (convertMilesToKm n)
  | none => .nan

/-- `Math.round(v / conversionFactor)` on a field. -/
def JsNum.roundOverFactor (v : JsNum) : JsNum :=
  match v.toNumber with
  | some n => .num (convertKmToMiles n)
  | none => .nan

/-- `Math.max(a, b)`. -/
def JsNum.max (a b : JsNum) : JsNum :=
  match a.toNumber, b.toNumber with
  | some x, some y => .num (Max.max x y)
  | _, _ => .nan

namespace TruckDetail

/-- Lines 106-134; `mileageValue` is the result of `parseInt(currentMileage)`,
`none` for `NaN`. The result is the truck as stored afterwards. -/
def handleUpdateMileage (truck : Truck) (mileageValue : Option Int) : Truck :=
  match mileageValue with
  | none => truck
  | some v =>
    if (JsNum.num v).lt (truck.currentMileage.or (.num 0)) then truck
    else { truck with currentMileage := .num v }

/-- Lines 260-332; `distanceUnit` is the unit chosen in the form. The result
is the truck as stored afterwards. -/
def handleUpdateDistanceUnit (truck : Truck) (distanceUnit : String) : Truck :=
  if distanceUnit ≠ "miles" ∧ distanceUnit ≠ "km" then truck
  else
    let toKm : Bool := truck.distanceUnit == some "miles" && distanceUnit == "km"
    let toMiles : Bool := truck.distanceUnit == some "km" && distanceUnit == "miles"
    let convert (v : JsNum) : JsNum :=
      if toKm then v.roundTimesFactor
      else if toMiles then v.roundOverFactor
      else v
    { truck with
      distanceUnit := some distanceUnit
      oilChangeMileageInterval := convert truck.oilChangeMileageInterval
      airFilterMileageInterval := convert truck.airFilterMileageInterval
      fuelFilterMileageInterval := convert truck.fuelFilterMileageInterval
      dpfCleaningMileageInterval := convert truck.dpfCleaningMileageInterval
      currentMileage := convert truck.currentMileage }

end TruckDetail

/-! ## `MaintenanceForm.jsx` -/

namespace MaintenanceForm

/-- Lines 32-104; `mileage` is the result of `parseInt(formData.mileage)`,
`none` for `NaN`. The result is the truck as stored afterwards. The keys
`notes` and `nextMileage` of the new record, which no evaluator reads, are
left out. -/
def handleSubmit (truck : Truck) (type : String) (date nextDate : JsDate)
    (mileage : Option Int) : Truck :=
  match mileage with
  | none => truck
  | some mileage =>
    if mileage < 0 then truck
    else
      let maintenanceHistory : List MaintenanceRecord :=
        match truck.maintenanceHistory with
        | some h => h
        | none => []
      let newRecord : MaintenanceRecord :=
        { type := type, date := date, mileage := .num mileage, nextDate := nextDate }
      let maintenanceHistory :=
        match maintenanceHistory.findIdx? (fun record => record.type == type) with
        | some existingIndex => maintenanceHistory.set existingIndex newRecord
        | none => maintenanceHistory ++ [newRecord]
      { truck with
        maintenanceHistory := some maintenanceHistory
        currentMileage := (JsNum.num mileage).max (truck.currentMileage.or (.num 0)) }

end MaintenanceForm

/-! ## `QRCodePrint.jsx` -/

namespace QRCodePrint

/-- Lines 41-45: comparator putting the newest date first and records
without a date last. -/
def compareByDate (a b : MaintenanceRecord) : JsNum :=
  if !a.date.truthy then .num 1
  else if !b.date.truthy then .num (-1)
  else dateSub b.date.newDate a.date.newDate

/-- Lines 34-46. -/
def getLatestMaintenance (truck : Truck) (type : String) : Option MaintenanceRecord :=
  match truck.maintenanceHistory with
  | none => none
  | some history =>
    let records := history.filter (fun record => record.type == type)
    if records.length == 0 then none
    else (jsSort compareByDate records).head?

end QRCodePrint

/-! ## `TruckCard.jsx`: the call as a whole -/

namespace TruckCard

/-- Lines 42-109 as a call that may raise. Besides the fields of
`getMaintenanceStatus` the returned object holds
`format(new Date(maintenance.date), 'MMM d, yyyy')` when the record has a
`date`, and `format` of date-fns raises a `RangeError` on an Invalid Date;
nothing else in the function can raise. -/
def getMaintenanceStatusResult (now : Int) (truck : Truck) (type : String) :
    Except String MaintenanceStatus :=
  match truck.findRecord type with
  | none => .ok (getMaintenanceStatus now truck type)
  | some maintenance =>
    if maintenance.date.truthy then
      match maintenance.date.newDate with
      | none => .error "RangeError: Invalid time value"
      | some _ => .ok (getMaintenanceStatus now truck type)
    else .ok (getMaintenanceStatus now truck type)

end TruckCard

/-- The four maintenance kinds. -/
def maintenanceKinds : List String := ["oil", "airFilter", "fuelFilter", "dpfCleaning"]

/-! ## Specification-side notions -/

/-- Severity order of the statuses: `ok < approaching < due`; `unknown`, which
the order does not mention, is ranked with `ok`. -/
def Status.severity : Status → Nat
  | .unknown => 0
  | .ok => 0
  | .approaching => 1
  | .due => 2

/-- The truck with its odometer set to the number `c`. -/
def Truck.withMileage (truck : Truck) (c : Int) : Truck :=
  { truck with currentMileage := .num c }

/-- Safety-inspection classifier as the specification words it: `unknown` when
both dates are absent; otherwise `due` when the expiry date is present and
`now > expiry`; otherwise `approaching` when the expiry date is present and
`expiry < now + 30 days`; otherwise `ok`.  A comparison with a date that does
not parse does not hold. -/
def safetyInspectionSpec (now : Int) (inspection expiry : JsDate) : Status :=
  match inspection, expiry with
  | .absent, .absent => .unknown
  | _, .valid e =>
    if e < now then .due
    else if e < now + 30 * msPerDay then .approaching
    else .ok
  | _, _ => .ok

/-- The five items the urgency score ranges over. -/
def urgencyItems : List String :=
  ["oil", "airFilter", "fuelFilter", "dpfCleaning", "safetyInspection"]

/-- Weight of an item that is due. -/
def dueWeight (item : String) : Nat :=
  if item = "oil" then 100
  else if item = "airFilter" then 90
  else if item = "fuelFilter" then 80
  else if item = "dpfCleaning" then 70
  else if item = "safetyInspection" then 110
  else 0

/-- Weight of an item that is approaching. -/
def approachingWeight (item : String) : Nat :=
  if item = "oil" then 50
  else if item = "airFilter" then 45
  else if item = "fuelFilter" then 40
  else if item = "dpfCleaning" then 35
  else if item = "safetyInspection" then 55
  else 0

/-- The truck's own interval field for a maintenance kind. -/
def Truck.intervalField (truck : Truck) (kind : String) : JsNum :=
  if kind = "oil" then truck.oilChangeMileageInterval
  else if kind = "airFilter" then truck.airFilterMileageInterval
  else if kind = "fuelFilter" then truck.fuelFilterMileageInterval
  else if kind = "dpfCleaning" then truck.dpfCleaningMileageInterval
  else .undefined

/-- An item is due: the list's due predicate for a maintenance kind, the
inspection predicate for the safety inspection. -/
def itemDue (now : Int) (truck : Truck) (item : String) : Bool :=
  if item = "safetyInspection" then TruckList.isSafetyInspectionDue now truck
  else TruckList.checkMaintenanceTypeDue now truck item (truck.intervalField item)

/-- An item is approaching, likewise. -/
def itemApproaching (now : Int) (truck : Truck) (item : String) : Bool :=
  if item = "safetyInspection" then TruckList.isSafetyInspectionApproachingDue now truck
  else TruckList.isMaintenanceApproachingDue now truck item (truck.intervalField item)

/-- Aggregate urgency as the specification words it: the due weights of the
items that are due, plus the approaching weights of the items that are
approaching, plus 60 when the history is absent or empty. -/
def urgencySpec (now : Int) (truck : Truck) : Nat :=
  ((urgencyItems.filter (itemDue now truck)).map dueWeight).sum
    + ((urgencyItems.filter (itemApproaching now truck)).map approachingWeight).sum
    + (if truck.noHistory then 60 else 0)

/-- The sort keys the single-type comparator reads off a truck. -/
structure TaskRankKey where
  overdue : Bool
  score : Nat
  overdueBy : Int
  approaching : Bool
  odometer : Int
deriving DecidableEq, Repr

/-- Keys of a truck for the ranking by maintenance type `k`: overdue flag,
per-type score, overdue distance, approaching flag and `currentMileage || 0`. -/
def taskRankKey (now : Int) (k : String) (t : Truck) : TaskRankKey :=
  { overdue := TruckList.isMaintenanceOverdue now t k
    score := TruckList.getMaintenanceTypeUrgencyScore now t k
    overdueBy := (TruckList.getOverdueMileage t k).compareValue
    approaching := TruckList.isMaintenanceApproachingDue now t k (TruckList.sortInterval t k)
    odometer := (t.currentMileage.or (.num 0)).compareValue }

/-- The single-type comparator as a function of the keys. -/
def taskKeyCompare (x y : TaskRankKey) : Int :=
  if x.overdue && !y.overdue then -1
  else if !x.overdue && y.overdue then 1
  else if x.score ≠ y.score then (y.score : Int) - (x.score : Int)
  else if x.overdue && y.overdue then y.overdueBy - x.overdueBy
  else if x.approaching && !y.approaching then -1
  else if !x.approaching && y.approaching then 1
  else y.odometer - x.odometer

/-- Model year with a missing year counting as 0: `truck.year || 0`. -/
def Truck.yearOrZero (t : Truck) : Int := (t.year.or (.num 0)).compareValue

/-- The sort keys the safety-inspection comparator reads off a truck. -/
structure SafetyRankKey where
  hasInspection : Bool
  year : Int
  expired : Bool
  approaching : Bool
  expiry : Int
deriving DecidableEq, Repr

/-- Keys of a truck for the safety-inspection ranking; the expiry time only
matters for a truck that has an expiry date. -/
def safetyRankKey (now : Int) (t : Truck) : SafetyRankKey :=
  { hasInspection := t.safetyInspectionExpiryDate.truthy
    year := t.yearOrZero
    expired := TruckList.isSafetyInspectionDue now t
    approaching := TruckList.isSafetyInspectionApproachingDue now t
    expiry :=
      match t.safetyInspectionExpiryDate.newDate with
      | some e => e
      | none => 0 }

/-- The safety-inspection comparator as a function of the keys, for expiry
dates that parse. -/
def safetyKeyCompare (x y : SafetyRankKey) : Int :=
  if !x.hasInspection && y.hasInspection then -1
  else if x.hasInspection && !y.hasInspection then 1
  else if !x.hasInspection && !y.hasInspection then y.year - x.year
  else if x.expired && !y.expired then -1
  else if !x.expired && y.expired then 1
  else if x.expired && y.expired then x.expiry - y.expiry
  else if x.approaching && !y.approaching then -1
  else if !x.approaching && y.approaching then 1
  else x.expiry - y.expiry

/-- Odometer with a missing reading counting as 0: `truck.currentMileage || 0`. -/
def Truck.odometerOrZero (t : Truck) : Int := (t.currentMileage.or (.num 0)).compareValue

/-- Aggregate urgency when each item contributes at most one weight: its due
weight when due, else its approaching weight when approaching; plus 60 when
the history is absent or empty. -/
def exclusiveUrgency (now : Int) (truck : Truck) : Nat :=
  (urgencyItems.map (fun item =>
      if itemDue now truck item then dueWeight item
      else if itemApproaching now truck item then approachingWeight item
      else 0)).sum
    + (if truck.noHistory then 60 else 0)

/-! ## Example trucks -/

/-- Kilometre truck at 42000 km with an oil interval of 8000 km, a model year
and nothing else recorded. -/
def freshTruck : Truck :=
  { distanceUnit := some "km"
    currentMileage := .num 42000
    oilChangeMileageInterval := .num 8000
    airFilterMileageInterval := .null
    fuelFilterMileageInterval := .null
    dpfCleaningMileageInterval := .null
    safetyInspectionDate := .absent
    safetyInspectionExpiryDate := .absent
    year := .num 2020
    maintenanceHistory := none }

/-- Oil record taken at odometer `m` whose next-due date is `nextDate`. -/
def oilRecord (m : Int) (nextDate : JsDate) : MaintenanceRecord :=
  { type := "oil", date := .valid 0, mileage := .num m, nextDate := nextDate }

/-- The truck `freshTruck` with odometer `c` and a history of one oil record. -/
def oilTruck (c m : Int) (nextDate : JsDate) : Truck :=
  { freshTruck with
    currentMileage := .num c
    maintenanceHistory := some [oilRecord m nextDate] }

/-- A km truck at 35000 with a record of each of the four kinds taken at 34000
and no dates: nothing is due or approaching by the maintenance checks. -/
def servicedTruck : Truck :=
  { freshTruck with
    currentMileage := .num 35000
    maintenanceHistory := some
      [ oilRecord 34000 .absent
      , { type := "airFilter", date := .valid 0, mileage := .num 34000, nextDate := .absent }
      , { type := "fuelFilter", date := .valid 0, mileage := .num 34000, nextDate := .absent }
      , { type := "dpfCleaning", date := .valid 0, mileage := .num 34000, nextDate := .absent }
      ] }

/-- The truck `servicedTruck` with the given model year and safety-inspection
expiry date (inspection date one year earlier when there is one). -/
def inspectionTruck (year : JsNum) (expiry : JsDate) : Truck :=
  { servicedTruck with
    year := year
    safetyInspectionDate :=
      match expiry with
      | .valid e => .valid (e - 365 * msPerDay)
      | other => other
    safetyInspectionExpiryDate := expiry }

/-- The truck `oilTruck c m nextDate` with its oil interval replaced:
`null` for a truck that has none, a negative number for an untracked task. -/
def oilTruckWithInterval (interval : JsNum) (c m : Int) (nextDate : JsDate) : Truck :=
  { oilTruck c m nextDate with oilChangeMileageInterval := interval }

/-- Oil record dated `date` (milliseconds) taken at odometer `m`, without a
next-due date. -/
def datedOilRecord (date m : Int) : MaintenanceRecord :=
  { type := "oil", date := .valid date, mileage := .num m, nextDate := .absent }

/-- The truck `freshTruck` (odometer 42000, oil interval 8000) with the given
history. -/
def truckWithHistory (history : Option (List MaintenanceRecord)) : Truck :=
  { freshTruck with maintenanceHistory := history }

/-- A km truck at 42000 with all four intervals set and the given history. -/
def allIntervalsTruck (history : Option (List MaintenanceRecord)) : Truck :=
  { freshTruck with
    airFilterMileageInterval := .num 24000
    fuelFilterMileageInterval := .num 40000
    dpfCleaningMileageInterval := .num 160000
    maintenanceHistory := history }

/-- A miles truck at 32000 with oil interval 5000 and an oil record at 30000. -/
def milesTruck : Truck :=
  { oilTruck 32000 30000 .absent with
    distanceUnit := some "miles"
    oilChangeMileageInterval := .num 5000 }

/-- The truck `servicedTruck` with an inspection date that parses and an
expiry-date text that does not (`new Date('31/12/2025')` is an Invalid Date). -/
def unparseableExpiryTruck : Truck :=
  { servicedTruck with
    safetyInspectionDate := .valid 0
    safetyInspectionExpiryDate := .invalid }

/-! ## Properties -/

/-- C1: for a kind whose effective interval is positive (which only the four
maintenance kinds can have), a truck whose history holds no record of that
kind gets status `due`, with next-due distance equal to the truck's current
odometer reading. -/
theorem c1_no_record_is_due (now : Int) (truck : Truck) (k : String)
    (hpos : (TruckCard.intervalFor truck k).gt (.num 0) = true)
    (hnone : truck.findRecord k = none) :
    (TruckCard.getMaintenanceStatus now truck k).status = Status.due ∧
      (TruckCard.getMaintenanceStatus now truck k).nextMileage
        = NextMileage.value truck.currentMileage := by
  simp [TruckCard.getMaintenanceStatus, hnone, hpos]

/-- Witness for C1: `freshTruck` has no oil record and an oil interval of 8000. -/
theorem c1_no_record_is_due_witness :
    (TruckCard.getMaintenanceStatus 0 freshTruck "oil").status = Status.due ∧
      (TruckCard.getMaintenanceStatus 0 freshTruck "oil").nextMileage
        = NextMileage.value (.num 42000) :=
  c1_no_record_is_due 0 freshTruck "oil" (by decide) (by decide)

/-! ### Helper lemmas -/

theorem noHistory_eq_false_of_findRecord {truck : Truck} {k : String} {r : MaintenanceRecord}
    (h : truck.findRecord k = some r) : truck.noHistory = false := by
  unfold Truck.findRecord at h
  unfold Truck.noHistory
  cases hh : truck.maintenanceHistory with
  | none => simp [hh] at h
  | some l =>
    cases l with
    | nil => simp [hh] at h
    | cons a t => simp

theorem effectiveInterval_of_kind {k : String} (hk : k ∈ maintenanceKinds) (interval : JsNum) :
    ∃ i : Int, i ≠ 0 ∧ TruckList.effectiveInterval k interval = .num i := by
  simp only [maintenanceKinds, List.mem_cons, List.mem_singleton, List.not_mem_nil,
    or_false] at hk
  cases interval with
  | num n =>
    by_cases hn : n = 0
    · rcases hk with rfl | rfl | rfl | rfl <;>
        simp [TruckList.effectiveInterval, JsNum.truthy, hn]
    · exact ⟨n, hn, by simp [TruckList.effectiveInterval, JsNum.truthy, hn]⟩
  | undefined =>
    rcases hk with rfl | rfl | rfl | rfl <;> simp [TruckList.effectiveInterval, JsNum.truthy]
  | null =>
    rcases hk with rfl | rfl | rfl | rfl <;> simp [TruckList.effectiveInterval, JsNum.truthy]
  | nan =>
    rcases hk with rfl | rfl | rfl | rfl <;> simp [TruckList.effectiveInterval, JsNum.truthy]

/-- Counterexample to C2 as stated: a truck at 10000 whose oil record was
taken at odometer 0, with interval 8000 and no next-due date, is reported not
due although the record has a reading and `10000 >= 0 + 8000`. -/
theorem c2_zero_reading_counterexample :
    ¬ (TruckList.checkMaintenanceTypeDue 0 (oilTruck 10000 0 .absent) "oil" (.num 8000) = true ↔
        ((∃ d, (oilRecord 0 .absent).nextDate = .valid d ∧ d < 0) ∨
          (∃ m, (oilRecord 0 .absent).mileage = .num m ∧ m + 8000 ≤ (10000 : Int)))) := by
  intro h
  have hcode : TruckList.checkMaintenanceTypeDue 0 (oilTruck 10000 0 .absent) "oil" (.num 8000)
      = false := by decide
  rw [hcode] at h
  exact absurd (h.mpr (Or.inr ⟨0, rfl, by decide⟩)) (by decide)

/-- C2 (amended): for a truck holding a record `r` of one of the four kinds,
`checkMaintenanceTypeDue` is true exactly when the record's next-due date is
in the past, or the odometer and the record's service reading are both
non-zero numbers and the odometer has reached reading + effective interval
(inclusive). -/
theorem c2_due_iff (now : Int) (truck : Truck) (k : String) (interval : JsNum)
    (r : MaintenanceRecord) (hk : k ∈ maintenanceKinds) (hr : truck.findRecord k = some r) :
    TruckList.checkMaintenanceTypeDue now truck k interval = true ↔
      ((∃ d, r.nextDate = .valid d ∧ d < now) ∨
        (∃ c m i, truck.currentMileage = .num c ∧ c ≠ 0 ∧ r.mileage = .num m ∧ m ≠ 0 ∧
          TruckList.effectiveInterval k interval = .num i ∧ m + i ≤ c)) := by
  obtain ⟨i, hi0, hi⟩ := effectiveInterval_of_kind hk interval
  have hno := noHistory_eq_false_of_findRecord hr
  simp only [TruckList.checkMaintenanceTypeDue, hi, hno, hr]
  cases hd : r.nextDate <;> cases hc : truck.currentMileage <;> cases hm : r.mileage <;>
    simp [JsNum.truthy, JsDate.truthy, JsDate.newDate, isAfter, JsNum.ge, JsNum.add,
      JsNum.toNumber, hi0, and_assoc]

/-- Witness for C2: the truck at 42000 with an oil record at 34000 and
interval 8000 is due. -/
theorem c2_due_iff_witness :
    TruckList.checkMaintenanceTypeDue 0 (oilTruck 42000 34000 .absent) "oil" (.num 8000)
      = true :=
  (c2_due_iff 0 (oilTruck 42000 34000 .absent) "oil" (.num 8000) (oilRecord 34000 .absent)
    (by decide) (by decide)).mpr
    (Or.inr ⟨42000, 34000, 8000, rfl, by decide, rfl, by decide, by decide, by decide⟩)

/-- C3: with unit miles or km, positive odometer `c`, a record with positive
service reading `m`, positive interval `i` and no next-due date, the card
status is `approaching` exactly when `c + T >= m + i` and `c < m + i`, where
`T` is 500 for miles and 800 for km. -/
theorem c3_approaching_iff (now : Int) (truck : Truck) (k : String) (r : MaintenanceRecord)
    (c m i : Int)
    (hunit : truck.distanceUnit = some "miles" ∨ truck.distanceUnit = some "km")
    (hc : truck.currentMileage = .num c) (hcpos : 0 < c)
    (hr : truck.findRecord k = some r) (hm : r.mileage = .num m) (hmpos : 0 < m)
    (hi : TruckCard.intervalFor truck k = .num i) (hipos : 0 < i)
    (hd : r.nextDate = .absent) :
    (TruckCard.getMaintenanceStatus now truck k).status = Status.approaching ↔
      (m + i ≤ c + (if truck.distanceUnit = some "miles" then 500 else 800) ∧ c < m + i) := by
  have hc0 : c ≠ 0 := by omega
  have hm0 : m ≠ 0 := by omega
  have hi0 : i ≠ 0 := by omega
  have hmi0 : m + i ≠ 0 := by omega
  rcases hunit with hu | hu <;>
    simp [TruckCard.getMaintenanceStatus, TruckCard.isMaintenanceDue,
      TruckCard.isMileageApproachingDue, TruckCard.distanceUnit, hr, hi, hm, hd, hc, hu,
      JsNum.truthy, JsNum.gt, JsNum.ge, JsNum.lt, JsNum.add, JsNum.toNumber, JsDate.truthy,
      hipos, hc0, hm0, hi0, hmi0] <;>
    split <;> simp <;> omega

/-- Witness for C3: odometer 41600, oil record at 34000, interval 8000, km. -/
theorem c3_approaching_iff_witness :
    (TruckCard.getMaintenanceStatus 0 (oilTruck 41600 34000 .absent) "oil").status
      = Status.approaching :=
  (c3_approaching_iff 0 (oilTruck 41600 34000 .absent) "oil" (oilRecord 34000 .absent)
    41600 34000 8000 (Or.inr rfl) rfl (by decide) (by decide) rfl (by decide) (by decide)
    (by decide) rfl).mpr (by decide)

/-- C4 (code evaluated at the failing input): a km truck at 10000 whose oil
record (taken at 9000, interval 8000) has a next-due date 7 days after `now`
is not due, and the list view reports it as approaching, yet the card status
is `ok`: the card only looks at the distance when it decides `approaching`. -/
theorem c4_card_status_ignores_date_window :
    TruckList.checkMaintenanceTypeDue 0 (oilTruck 10000 9000 (.valid (7 * msPerDay))) "oil"
        (.num 8000) = false ∧
      TruckList.isMaintenanceApproachingDue 0 (oilTruck 10000 9000 (.valid (7 * msPerDay)))
        "oil" (.num 8000) = true ∧
      (TruckCard.getMaintenanceStatus 0 (oilTruck 10000 9000 (.valid (7 * msPerDay)))
        "oil").status = Status.ok := by
  decide

theorem effectiveInterval_idem (k : String) (interval : JsNum) :
    TruckList.effectiveInterval k (TruckList.effectiveInterval k interval)
      = TruckList.effectiveInterval k interval := by
  unfold TruckList.effectiveInterval
  by_cases h : interval.truthy = true
  · simp [h]
  · simp only [h]
    split_ifs <;> simp_all [JsNum.truthy]

/-- Counterexample to C5 as stated: with a next-due date exactly 14 days after
`now` (so `now + 14 days >= d` and `d > now`) on a truck that is not due, the
list view does not report the oil task as approaching. -/
theorem c5_inclusive_bound_counterexample :
    TruckList.checkMaintenanceTypeDue 0 (oilTruck 10000 9000 (.valid (14 * msPerDay))) "oil"
        (.num 8000) = false ∧
      (14 * msPerDay ≤ addDays 0 14 ∧ 0 < 14 * msPerDay) ∧
      TruckList.isMaintenanceApproachingDue 0 (oilTruck 10000 9000 (.valid (14 * msPerDay)))
        "oil" (.num 8000) = false := by
  decide

/-- C5 (amended): for a truck holding a record of one of the four kinds that
has a next-due date `d` and is not due, `isMaintenanceApproachingDue` is true
whenever `now + 14 days > d` and `d > now` (the 14-day bound is strict). -/
theorem c5_approaching_by_date (now : Int) (truck : Truck) (k : String) (interval : JsNum)
    (r : MaintenanceRecord) (d : Int) (hk : k ∈ maintenanceKinds)
    (hr : truck.findRecord k = some r) (hd : r.nextDate = .valid d)
    (hnotdue : TruckList.checkMaintenanceTypeDue now truck k interval = false)
    (h14 : d < addDays now 14) (hnow : now < d) :
    TruckList.isMaintenanceApproachingDue now truck k interval = true := by
  obtain ⟨i, hi0, hi⟩ := effectiveInterval_of_kind hk interval
  have hnotdue2 : TruckList.checkMaintenanceTypeDue now truck k (.num i) = false := by
    have h := hnotdue
    unfold TruckList.checkMaintenanceTypeDue at h ⊢
    rw [← hi, effectiveInterval_idem]
    exact h
  simp [TruckList.isMaintenanceApproachingDue, hi, hnotdue2, hr, hd, JsNum.truthy,
    JsDate.truthy, JsDate.newDate, isAfter, hi0, h14, hnow]

/-- Witness for C5: next-due date 7 days after `now`, truck not due. -/
theorem c5_approaching_by_date_witness :
    TruckList.isMaintenanceApproachingDue 0 (oilTruck 10000 9000 (.valid (7 * msPerDay)))
      "oil" (.num 8000) = true :=
  c5_approaching_by_date 0 (oilTruck 10000 9000 (.valid (7 * msPerDay))) "oil" (.num 8000)
    (oilRecord 9000 (.valid (7 * msPerDay))) (7 * msPerDay) (by decide) (by decide) rfl
    (by decide) (by decide) (by decide)

theorem overdueInterval_eq_intervalFor (truck : Truck) (k : String) :
    TruckList.overdueInterval truck k = TruckCard.intervalFor truck k := rfl

/-- Counterexample to C6 as stated: for a truck at 42000 with no record the
next-due distance is the odometer itself, so the claimed overdue distance is
`max 0 (42000 - 42000) = 0`, but both the card and the list report 42000. -/
theorem c6_no_record_counterexample :
    (TruckCard.getMaintenanceStatus 0 freshTruck "oil").nextMileage
        = NextMileage.value (.num 42000) ∧
      (TruckCard.getMaintenanceStatus 0 freshTruck "oil").overdueMileage
        ≠ .num (max 0 (42000 - 42000)) ∧
      TruckList.getOverdueMileage freshTruck "oil" ≠ .num (max 0 (42000 - 42000)) ∧
      (TruckCard.getMaintenanceStatus 0 freshTruck "oil").overdueMileage = .num 42000 ∧
      TruckList.getOverdueMileage freshTruck "oil" = .num 42000 := by
  decide

/-- C6 (amended): for a truck with numeric odometer `c` and a kind with
positive effective interval `i`: when the history holds a record of the kind
with a positive service reading `m`, the card's `overdueMileage` and the
list's `getOverdueMileage` both equal `max 0 (c - (m + i))`, hence 0 when the
odometer has not passed `m + i`; when the history holds no record of the kind,
both report the current odometer reading `c`. -/
theorem c6_overdue_mileage (now : Int) (truck : Truck) (k : String) (c i : Int)
    (hc : truck.currentMileage = .num c)
    (hi : TruckCard.intervalFor truck k = .num i) (hipos : 0 < i) :
    (∀ r m, truck.findRecord k = some r → r.mileage = .num m → 0 < m →
        (TruckCard.getMaintenanceStatus now truck k).overdueMileage
            = .num (max 0 (c - (m + i))) ∧
          TruckList.getOverdueMileage truck k = .num (max 0 (c - (m + i)))) ∧
      (truck.findRecord k = none →
        (TruckCard.getMaintenanceStatus now truck k).overdueMileage = .num c ∧
          TruckList.getOverdueMileage truck k = .num c) := by
  have hi0 : i ≠ 0 := by omega
  refine ⟨?_, ?_⟩
  · intro r m hr hm hmpos
    have hno := noHistory_eq_false_of_findRecord hr
    have hm0 : m ≠ 0 := by omega
    have hmi0 : m + i ≠ 0 := by omega
    refine ⟨?_, ?_⟩
    · simp only [TruckCard.getMaintenanceStatus, hr, hi, hm, hc]
      by_cases hlt : m + i < c
      · have hmax : max 0 (c - (m + i)) = c - (m + i) := by omega
        simp [JsNum.truthy, JsNum.gt, JsNum.add, JsNum.sub, JsNum.toNumber, hipos, hm0, hmi0,
          hlt, hmax]
      · have hmax : max 0 (c - (m + i)) = 0 := by omega
        simp [JsNum.truthy, JsNum.gt, JsNum.add, JsNum.sub, JsNum.toNumber, hipos, hm0, hmi0,
          hlt, hmax]
    · simp only [TruckList.getOverdueMileage, overdueInterval_eq_intervalFor, hr, hi, hm, hc,
        hno]
      by_cases hc0 : c = 0
      · have hmax : max 0 (c - (m + i)) = 0 := by omega
        simp [JsNum.truthy, hc0, hmax]
        omega
      · by_cases hle : m + i ≤ c
        · have hmax : max 0 (c - (m + i)) = c - (m + i) := by omega
          simp [JsNum.truthy, JsNum.ge, JsNum.add, JsNum.sub, JsNum.toNumber, hc0, hi0, hle,
            hmax]
        · have hmax : max 0 (c - (m + i)) = 0 := by omega
          simp [JsNum.truthy, JsNum.ge, JsNum.add, JsNum.sub, JsNum.toNumber, hc0, hi0, hle,
            hmax]
  · intro hnone
    refine ⟨?_, ?_⟩
    · simp [TruckCard.getMaintenanceStatus, hnone, hi, hc, JsNum.gt, JsNum.toNumber, hipos]
    · simp only [TruckList.getOverdueMileage, overdueInterval_eq_intervalFor, hnone, hi, hc]
      by_cases hc0 : c = 0
      · simp [JsNum.truthy, hc0]
      · simp [JsNum.truthy, hc0, hi0]

/-- Witness for C6: at odometer 42000 with an oil record at 34000 and interval
8000 the odometer equals the next-due distance and the overdue distance is 0. -/
theorem c6_overdue_mileage_witness :
    (TruckCard.getMaintenanceStatus 0 (oilTruck 42000 34000 .absent) "oil").overdueMileage
        = .num (max 0 (42000 - (34000 + 8000))) ∧
      TruckList.getOverdueMileage (oilTruck 42000 34000 .absent) "oil"
        = .num (max 0 (42000 - (34000 + 8000))) :=
  (c6_overdue_mileage 0 (oilTruck 42000 34000 .absent) "oil" 42000 8000 rfl (by decide)
    (by decide)).1 (oilRecord 34000 .absent) 34000 (by decide) rfl (by decide)

/-- Card status of a truck that holds a record with a non-zero reading `m`
for a kind with positive interval `i`, when the record's next-due date is not
in the past: a closed form in the odometer `c`. -/
theorem cardStatus_of_record (now : Int) (truck : Truck) (k : String) (r : MaintenanceRecord)
    (i m c : Int) (hr : truck.findRecord k = some r)
    (hi : TruckCard.intervalFor truck k = .num i) (hipos : 0 < i)
    (hm : r.mileage = .num m) (hm0 : m ≠ 0) (hc : truck.currentMileage = .num c)
    (hdd : isAfter (some now) r.nextDate.newDate = false) :
    (TruckCard.getMaintenanceStatus now truck k).status =
      if m + i ≠ 0 ∧ c ≠ 0 ∧ m + i ≤ c then Status.due
      else if c ≠ 0
          ∧ m + i ≤ c + (if TruckCard.distanceUnit truck = "miles" then 500 else 800)
          ∧ c < m + i then Status.approaching
      else Status.ok := by
  have hi0 : i ≠ 0 := by omega
  simp only [TruckCard.getMaintenanceStatus, TruckCard.isMaintenanceDue,
    TruckCard.isMileageApproachingDue, hr, hi, hm, hc, hdd]
  by_cases hu : TruckCard.distanceUnit truck = "miles" <;>
    by_cases hN : m + i = 0 <;> by_cases hc0 : c = 0 <;> by_cases hle : m + i ≤ c <;>
    by_cases hlt : c < m + i <;>
    simp [JsNum.truthy, JsNum.gt, JsNum.ge, JsNum.lt, JsNum.add, JsNum.toNumber,
      hu, hN, hc0, hle, hlt, hm0, hi0, hipos]

/-- C7: monotonicity in the odometer. For fixed `now`, unit, intervals and
history and odometer readings `0 <= c1 <= c2`, the card status at `c2` is at
least as severe as at `c1` (`ok < approaching < due`), and it is `unknown` at
`c1` exactly when it is `unknown` at `c2`. -/
theorem c7_status_monotone (now : Int) (truck : Truck) (k : String) (c1 c2 : Int)
    (h0 : 0 ≤ c1) (h12 : c1 ≤ c2) :
    ((TruckCard.getMaintenanceStatus now (truck.withMileage c1) k).status = Status.unknown ↔
        (TruckCard.getMaintenanceStatus now (truck.withMileage c2) k).status = Status.unknown) ∧
      (TruckCard.getMaintenanceStatus now (truck.withMileage c1) k).status.severity
        ≤ (TruckCard.getMaintenanceStatus now (truck.withMileage c2) k).status.severity := by
  have hf : ∀ c, (truck.withMileage c).findRecord k = truck.findRecord k := fun _ => rfl
  have hiv : ∀ c, TruckCard.intervalFor (truck.withMileage c) k = TruckCard.intervalFor truck k :=
    fun _ => rfl
  have hu : ∀ c, TruckCard.distanceUnit (truck.withMileage c) = TruckCard.distanceUnit truck :=
    fun _ => rfl
  have hcm : ∀ c, (truck.withMileage c).currentMileage = .num c := fun _ => rfl
  cases hr : truck.findRecord k with
  | none =>
    simp only [TruckCard.getMaintenanceStatus, hf, hiv, hr]
    by_cases hg : (TruckCard.intervalFor truck k).gt (.num 0) = true <;>
      simp [hg, Status.severity]
  | some r =>
    by_cases hdd : isAfter (some now) r.nextDate.newDate = true
    · simp only [TruckCard.getMaintenanceStatus, TruckCard.isMaintenanceDue, hf, hiv, hr]
      cases hd : r.nextDate with
      | absent => simp [hd, JsDate.newDate, isAfter] at hdd
      | invalid => simp [hd, JsDate.newDate, isAfter] at hdd
      | valid t =>
        simp only [hd, JsDate.newDate, isAfter, decide_eq_true_eq] at hdd
        simp [JsDate.truthy, JsDate.newDate, isAfter, hdd, Status.severity]
    · by_cases hg : (TruckCard.intervalFor truck k).gt (.num 0) = true
      · obtain ⟨i, hi⟩ : ∃ i, TruckCard.intervalFor truck k = .num i := by
          cases hi : TruckCard.intervalFor truck k <;>
            simp [hi, JsNum.gt, JsNum.toNumber] at hg
          exact ⟨_, rfl⟩
        have hipos : 0 < i := by simpa [hi, JsNum.gt, JsNum.toNumber] using hg
        by_cases hmt : r.mileage.truthy = true
        · obtain ⟨m, hm⟩ : ∃ m, r.mileage = .num m := by
            cases hm : r.mileage <;> simp [hm, JsNum.truthy] at hmt
            exact ⟨_, rfl⟩
          have hm0 : m ≠ 0 := by simpa [hm, JsNum.truthy] using hmt
          have hdd2 : isAfter (some now) r.nextDate.newDate = false := by simpa using hdd
          rw [cardStatus_of_record now (truck.withMileage c1) k r i m c1 (by rw [hf, hr])
              (by rw [hiv, hi]) hipos hm hm0 (hcm c1) hdd2,
            cardStatus_of_record now (truck.withMileage c2) k r i m c2 (by rw [hf, hr])
              (by rw [hiv, hi]) hipos hm hm0 (hcm c2) hdd2, hu c1, hu c2]
          by_cases hmiles : TruckCard.distanceUnit truck = "miles" <;>
            simp only [hmiles, if_true, if_false] <;>
            split_ifs <;> simp [Status.severity] <;> omega
        · have hmt2 : r.mileage.truthy = false := by simpa using hmt
          have hdd2 : isAfter (some now) r.nextDate.newDate = false := by simpa using hdd
          simp only [TruckCard.getMaintenanceStatus, TruckCard.isMaintenanceDue,
            TruckCard.isMileageApproachingDue, hf, hiv, hr, hmt2, hdd2, hg]
          simp [JsNum.truthy, Status.severity]
      · have hg2 : (TruckCard.intervalFor truck k).gt (.num 0) = false := by simpa using hg
        have hdd2 : isAfter (some now) r.nextDate.newDate = false := by simpa using hdd
        simp only [TruckCard.getMaintenanceStatus, TruckCard.isMaintenanceDue,
          TruckCard.isMileageApproachingDue, hf, hiv, hr, hdd2, hg2]
        simp [JsNum.truthy, Status.severity]

/-- Witness for C7: the oil task of a km truck with a record at 34000 and
interval 8000, read at 41600 and at 42000. -/
theorem c7_status_monotone_witness :
    ((TruckCard.getMaintenanceStatus 0
          ((oilTruck 0 34000 .absent).withMileage 41600) "oil").status = Status.unknown ↔
        (TruckCard.getMaintenanceStatus 0
          ((oilTruck 0 34000 .absent).withMileage 42000) "oil").status = Status.unknown) ∧
      (TruckCard.getMaintenanceStatus 0
          ((oilTruck 0 34000 .absent).withMileage 41600) "oil").status.severity
        ≤ (TruckCard.getMaintenanceStatus 0
          ((oilTruck 0 34000 .absent).withMileage 42000) "oil").status.severity :=
  c7_status_monotone 0 (oilTruck 0 34000 .absent) "oil" 41600 42000 (by decide) (by decide)

/-- The card's safety-inspection call raises exactly when one of the two dates
is a text that does not parse; otherwise it returns the status of the
specified classifier: `unknown` exactly when both dates are absent; otherwise
`due` when the expiry date is present and `now > expiry`; otherwise
`approaching` when the expiry date is present and `expiry < now + 30 days`;
otherwise `ok`. -/
theorem getSafetyInspectionStatus_eq (now : Int) (truck : Truck) :
    TruckCard.getSafetyInspectionStatus now truck
      = if truck.safetyInspectionDate = .invalid ∨ truck.safetyInspectionExpiryDate = .invalid
        then .error "RangeError: Invalid time value"
        else .ok (safetyInspectionSpec now truck.safetyInspectionDate
          truck.safetyInspectionExpiryDate) := by
  unfold TruckCard.getSafetyInspectionStatus safetyInspectionSpec
  cases hi : truck.safetyInspectionDate <;> cases he : truck.safetyInspectionExpiryDate <;>
    simp [JsDate.truthy, JsDate.newDate, isAfter, isBefore, addDays, dateFormat]

/-- C8 (code evaluated at the failing input): for a truck whose expiry date is
a text that does not parse, the specified classifier gives `ok` (the expiry
date is present, neither comparison with it holds), and the list's two checks
return without raising, not due and not approaching; the card's
`getSafetyInspectionStatus` raises a `RangeError` instead of returning a
status. -/
theorem c8_unparseable_expiry_raises :
    safetyInspectionSpec 0 unparseableExpiryTruck.safetyInspectionDate
        unparseableExpiryTruck.safetyInspectionExpiryDate = Status.ok ∧
      TruckList.isSafetyInspectionDue 0 unparseableExpiryTruck = false ∧
      TruckList.isSafetyInspectionApproachingDue 0 unparseableExpiryTruck = false ∧
      TruckCard.getSafetyInspectionStatus 0 unparseableExpiryTruck
        = .error "RangeError: Invalid time value" ∧
      TruckCard.getSafetyInspectionStatus 0 unparseableExpiryTruck ≠ .ok Status.ok := by
  refine ⟨by decide, by decide, by decide, rfl, ?_⟩
  intro h
  cases h

/-- C9: a truck without a safety-inspection expiry date and with a non-zero
model year needs attention on the dashboard, whatever else it holds. -/
theorem c9_no_inspection_with_year (now : Int) (truck : Truck)
    (hexp : truck.safetyInspectionExpiryDate = .absent) (hyear : truck.year.truthy = true) :
    Dashboard.checkTruckMaintenanceDue now truck = true := by
  unfold Dashboard.checkTruckMaintenanceDue
  simp only [hexp, hyear, JsDate.truthy]
  split_ifs <;> simp_all

/-- Witness for C9: `servicedTruck` has nothing due by the maintenance checks,
no expiry date and model year 2020. -/
theorem c9_no_inspection_with_year_witness :
    Dashboard.checkTruckMaintenanceDue 0 servicedTruck = true :=
  c9_no_inspection_with_year 0 servicedTruck rfl (by decide)

theorem ite_add_weight (b : Bool) (s w : Nat) :
    (if b = true then s + w else s) = s + (if b = true then w else 0) := by
  cases b <;> simp

theorem sum_map_filter_weight (p : String → Bool) (w : String → Nat) (l : List String) :
    ((l.filter p).map w).sum = (l.map (fun x => if p x = true then w x else 0)).sum := by
  induction l with
  | nil => rfl
  | cons a t ih =>
    by_cases h : p a = true
    · simp [List.filter, h, ih]
    · simp [List.filter, h, ih]

/-- C10: the aggregate urgency score is the sum of the due weights of the
items that are due, the approaching weights of the items that are
approaching, and 60 when the history is absent or empty. -/
theorem c10_urgency_score (now : Int) (truck : Truck) :
    TruckList.getUrgencyScore now truck = urgencySpec now truck := by
  have d1 : itemDue now truck "oil"
      = TruckList.checkMaintenanceTypeDue now truck "oil" truck.oilChangeMileageInterval := rfl
  have d2 : itemDue now truck "airFilter"
      = TruckList.checkMaintenanceTypeDue now truck "airFilter"
          truck.airFilterMileageInterval := rfl
  have d3 : itemDue now truck "fuelFilter"
      = TruckList.checkMaintenanceTypeDue now truck "fuelFilter"
          truck.fuelFilterMileageInterval := rfl
  have d4 : itemDue now truck "dpfCleaning"
      = TruckList.checkMaintenanceTypeDue now truck "dpfCleaning"
          truck.dpfCleaningMileageInterval := rfl
  have d5 : itemDue now truck "safetyInspection"
      = TruckList.isSafetyInspectionDue now truck := rfl
  have a1 : itemApproaching now truck "oil"
      = TruckList.isMaintenanceApproachingDue now truck "oil"
          truck.oilChangeMileageInterval := rfl
  have a2 : itemApproaching now truck "airFilter"
      = TruckList.isMaintenanceApproachingDue now truck "airFilter"
          truck.airFilterMileageInterval := rfl
  have a3 : itemApproaching now truck "fuelFilter"
      = TruckList.isMaintenanceApproachingDue now truck "fuelFilter"
          truck.fuelFilterMileageInterval := rfl
  have a4 : itemApproaching now truck "dpfCleaning"
      = TruckList.isMaintenanceApproachingDue now truck "dpfCleaning"
          truck.dpfCleaningMileageInterval := rfl
  have a5 : itemApproaching now truck "safetyInspection"
      = TruckList.isSafetyInspectionApproachingDue now truck := rfl
  have w1 : dueWeight "oil" = 100 := rfl
  have w2 : dueWeight "airFilter" = 90 := rfl
  have w3 : dueWeight "fuelFilter" = 80 := rfl
  have w4 : dueWeight "dpfCleaning" = 70 := rfl
  have w5 : dueWeight "safetyInspection" = 110 := rfl
  have v1 : approachingWeight "oil" = 50 := rfl
  have v2 : approachingWeight "airFilter" = 45 := rfl
  have v3 : approachingWeight "fuelFilter" = 40 := rfl
  have v4 : approachingWeight "dpfCleaning" = 35 := rfl
  have v5 : approachingWeight "safetyInspection" = 55 := rfl
  simp only [TruckList.getUrgencyScore, urgencySpec, urgencyItems, sum_map_filter_weight,
    List.map, List.sum_cons, List.sum_nil, ite_add_weight,
    d1, d2, d3, d4, d5, a1, a2, a3, a4, a5, w1, w2, w3, w4, w5, v1, v2, v3, v4, v5]
  omega

/-! ### Per-type urgency score -/

theorem checkMaintenanceTypeDue_effectiveInterval (now : Int) (truck : Truck) (k : String)
    (interval : JsNum) :
    TruckList.checkMaintenanceTypeDue now truck k (TruckList.effectiveInterval k interval)
      = TruckList.checkMaintenanceTypeDue now truck k interval := by
  unfold TruckList.checkMaintenanceTypeDue
  rw [effectiveInterval_idem]

theorem isMaintenanceApproachingDue_eq_false_of_due (now : Int) (truck : Truck) (k : String)
    (interval : JsNum) (h : TruckList.checkMaintenanceTypeDue now truck k interval = true) :
    TruckList.isMaintenanceApproachingDue now truck k interval = false := by
  unfold TruckList.isMaintenanceApproachingDue
  simp only [checkMaintenanceTypeDue_effectiveInterval, h]
  simp

theorem isSafetyInspectionApproachingDue_eq_false_of_due (now : Int) (truck : Truck)
    (h : TruckList.isSafetyInspectionDue now truck = true) :
    TruckList.isSafetyInspectionApproachingDue now truck = false := by
  unfold TruckList.isSafetyInspectionApproachingDue
  simp [h]

theorem itemApproaching_eq_false_of_itemDue (now : Int) (truck : Truck) (k : String)
    (h : itemDue now truck k = true) : itemApproaching now truck k = false := by
  unfold itemDue at h
  unfold itemApproaching
  split_ifs at h ⊢
  · exact isSafetyInspectionApproachingDue_eq_false_of_due now truck h
  · exact isMaintenanceApproachingDue_eq_false_of_due now truck k _ h

/-- The due and approaching part of the per-type score, for one of the five
items: 100 when the item is due, 50 when it is approaching, 0 otherwise. -/
theorem typeContribution_eq (now : Int) (truck : Truck) (k : String) (hk : k ∈ urgencyItems) :
    TruckList.typeContribution now truck k
      = if itemDue now truck k = true then 100
        else if itemApproaching now truck k = true then 50 else 0 := by
  simp only [urgencyItems, List.mem_cons, List.mem_singleton, List.not_mem_nil,
    or_false] at hk
  have key : ∀ d a : Bool, (d = true → a = false) →
      (if a = true then (if d = true then 0 + 100 else 0) + 50
        else (if d = true then 0 + 100 else 0))
      = if d = true then 100 else if a = true then 50 else 0 := by
    intro d a h
    cases d <;> cases a <;> simp_all
  rcases hk with rfl | rfl | rfl | rfl | rfl
  · exact key _ _ (itemApproaching_eq_false_of_itemDue now truck "oil")
  · exact key _ _ (itemApproaching_eq_false_of_itemDue now truck "airFilter")
  · exact key _ _ (itemApproaching_eq_false_of_itemDue now truck "fuelFilter")
  · exact key _ _ (itemApproaching_eq_false_of_itemDue now truck "dpfCleaning")
  · exact key _ _ (itemApproaching_eq_false_of_itemDue now truck "safetyInspection")

/-- Counterexample to C11 as stated: a truck whose air-filter record (taken at
34000, default interval) is due at odometer 100000 gets the per-type score
100, not the air-filter due weight 90 of the aggregate table. -/
theorem c11_air_filter_weight_counterexample :
    (servicedTruck.withMileage 100000).findRecord "airFilter" ≠ none ∧
      itemDue 0 (servicedTruck.withMileage 100000) "airFilter" = true ∧
      TruckList.getMaintenanceTypeUrgencyScore 0 (servicedTruck.withMileage 100000) "airFilter"
        = 100 ∧
      TruckList.getMaintenanceTypeUrgencyScore 0 (servicedTruck.withMileage 100000) "airFilter"
        ≠ dueWeight "airFilter" := by
  decide

/-- C11 (amended): for a truck to which no bonus applies (it holds a record
of the kind, or the item is the safety inspection and the history is not
empty), the per-type score is 100 when the item is due, 50 when it is
approaching and 0 otherwise, the same two weights for each of the five
items. -/
theorem c11_type_score (now : Int) (truck : Truck) (k : String) (hk : k ∈ urgencyItems)
    (hrec : (truck.findRecord k).isSome = true
      ∨ (k = "safetyInspection" ∧ truck.noHistory = false)) :
    TruckList.getMaintenanceTypeUrgencyScore now truck k
      = if itemDue now truck k = true then 100
        else if itemApproaching now truck k = true then 50 else 0 := by
  unfold TruckList.getMaintenanceTypeUrgencyScore
  rw [typeContribution_eq now truck k hk]
  rcases hrec with h | ⟨rfl, h⟩
  · obtain ⟨r, hr⟩ := Option.isSome_iff_exists.mp h
    have hno := noHistory_eq_false_of_findRecord hr
    simp [hno, hr]
  · simp [h]

/-- Witness for C11: the truck at 42000 with an oil record at 34000 and
interval 8000 is due for oil and scores 100. -/
theorem c11_type_score_witness :
    TruckList.getMaintenanceTypeUrgencyScore 0 (oilTruck 42000 34000 .absent) "oil"
      = if itemDue 0 (oilTruck 42000 34000 .absent) "oil" = true then 100
        else if itemApproaching 0 (oilTruck 42000 34000 .absent) "oil" = true then 50 else 0 :=
  c11_type_score 0 (oilTruck 42000 34000 .absent) "oil" (by decide) (Or.inl (by decide))

/-- C12: the per-type score is the due and approaching contribution plus a
bonus of exactly 60 when the history is absent or empty, or when the type is
not the safety inspection and the history holds no record of the type; in
every other case nothing is added. -/
theorem c12_no_history_bonus (now : Int) (truck : Truck) (type : String) :
    TruckList.getMaintenanceTypeUrgencyScore now truck type
      = TruckList.typeContribution now truck type
        + (if truck.noHistory = true
            ∨ (type ≠ "safetyInspection" ∧ truck.findRecord type = none) then 60 else 0) := by
  unfold TruckList.getMaintenanceTypeUrgencyScore
  by_cases hno : truck.noHistory = true
  · simp [hno]
  · by_cases hs : type = "safetyInspection"
    · simp [hno, hs]
    · cases hf : truck.findRecord type <;> simp [hno, hs, hf]

/-! ### The sort -/

theorem jsSort_perm {α : Type} (compareFn : α → α → JsNum) (l : List α) :
    (jsSort compareFn l).Perm l :=
  List.perm_insertionSort _ l

theorem pairwise_orderedInsert_on {α : Type} (r : α → α → Prop) [DecidableRel r]
    (P : α → Prop) (htot : ∀ a b, P a → P b → r a b ∨ r b a)
    (htr : ∀ a b c, P a → P b → P c → r a b → r b c → r a c) (a : α) (ha : P a) :
    ∀ l : List α, (∀ x ∈ l, P x) → l.Pairwise r → (l.orderedInsert r a).Pairwise r := by
  intro l
  induction l with
  | nil => intro _ _; simp
  | cons b t ih =>
    intro hP hpw
    have hb : P b := hP b (List.mem_cons_self b t)
    have ht : ∀ x ∈ t, P x := fun x hx => hP x (List.mem_cons_of_mem b hx)
    obtain ⟨hbt, hpt⟩ := List.pairwise_cons.mp hpw
    by_cases h : r a b
    · rw [List.orderedInsert, if_pos h]
      refine List.pairwise_cons.mpr ⟨?_, hpw⟩
      intro c hc
      rcases List.mem_cons.mp hc with rfl | hc
      · exact h
      · exact htr a b c ha hb (ht c hc) h (hbt c hc)
    · rw [List.orderedInsert, if_neg h]
      refine List.pairwise_cons.mpr ⟨?_, ih ht hpt⟩
      intro c hc
      rcases (List.mem_orderedInsert r).mp hc with rfl | hc
      · exact (htot c b ha hb).resolve_left h
      · exact hbt c hc

/-- For a comparator that is total and transitive on the elements of the
list, the sorted list is ordered: an element never comes before one it
compares greater than. -/
theorem pairwise_jsSort {α : Type} (compareFn : α → α → JsNum) (P : α → Prop)
    (htot : ∀ a b, P a → P b →
      (compareFn a b).compareValue ≤ 0 ∨ (compareFn b a).compareValue ≤ 0)
    (htr : ∀ a b c, P a → P b → P c → (compareFn a b).compareValue ≤ 0 →
      (compareFn b c).compareValue ≤ 0 → (compareFn a c).compareValue ≤ 0)
    (l : List α) (hl : ∀ x ∈ l, P x) :
    (jsSort compareFn l).Pairwise (fun a b => (compareFn a b).compareValue ≤ 0) := by
  induction l with
  | nil => simp [jsSort]
  | cons a t ih =>
    have ht : ∀ x ∈ t, P x := fun x hx => hl x (List.mem_cons_of_mem a hx)
    have ih2 := ih ht
    unfold jsSort at ih2 ⊢
    rw [List.insertionSort]
    refine pairwise_orderedInsert_on _ P htot htr a (hl a (List.mem_cons_self a t)) _ ?_ ih2
    intro x hx
    exact ht x ((List.mem_insertionSort _).mp hx)

/-- Stability: elements that compare equal to one another keep their input
order. -/
theorem jsSort_filter_eq {α : Type} (compareFn : α → α → JsNum) (p : α → Bool)
    (hp : ∀ a b, p a = true → p b = true → (compareFn a b).compareValue ≤ 0) (l : List α) :
    (jsSort compareFn l).filter p = l.filter p := by
  have hpw : (l.filter p).Pairwise (fun a b => (compareFn a b).compareValue ≤ 0) := by
    rw [List.pairwise_iff_forall_sublist]
    intro a b hab
    have ha : a ∈ l.filter p := hab.subset (by simp)
    have hb : b ∈ l.filter p := hab.subset (by simp)
    exact hp a b (List.mem_filter.mp ha).2 (List.mem_filter.mp hb).2
  have hsub : List.Sublist (l.filter p) (jsSort compareFn l) :=
    List.sublist_insertionSort hpw (List.filter_sublist l)
  have hsub2 : List.Sublist (l.filter p) ((jsSort compareFn l).filter p) := by
    have := hsub.filter p
    simpa [List.filter_filter] using this
  have hlen : ((jsSort compareFn l).filter p).length = (l.filter p).length :=
    ((jsSort_perm compareFn l).filter p).length_eq
  exact (hsub2.eq_of_length hlen.symm).symm

/-- C13: the aggregate ranking is a permutation of the input in which
`getUrgencyScore` never increases from front to back, and the trucks of each
score keep their input order. -/
theorem c13_aggregate_ranking (now : Int) (trucks : List Truck) :
    (TruckList.sortedTrucks now "all" true trucks).Perm trucks ∧
      (TruckList.sortedTrucks now "all" true trucks).Pairwise
        (fun a b => TruckList.getUrgencyScore now b ≤ TruckList.getUrgencyScore now a) ∧
      ∀ s : Nat,
        (TruckList.sortedTrucks now "all" true trucks).filter
            (fun t => TruckList.getUrgencyScore now t == s)
          = trucks.filter (fun t => TruckList.getUrgencyScore now t == s) := by
  have hs : TruckList.sortedTrucks now "all" true trucks
      = jsSort (TruckList.compareUrgency now) trucks := by
    simp [TruckList.sortedTrucks]
  have hv : ∀ a b, (TruckList.compareUrgency now a b).compareValue
      = (TruckList.getUrgencyScore now b : Int) - (TruckList.getUrgencyScore now a : Int) :=
    fun _ _ => rfl
  rw [hs]
  refine ⟨jsSort_perm _ _, ?_, ?_⟩
  · have h := pairwise_jsSort (TruckList.compareUrgency now) (fun _ => True)
      (by intro a b _ _; rw [hv, hv]; omega)
      (by intro a b c _ _ _; rw [hv, hv, hv]; omega) trucks (fun _ _ => trivial)
    refine h.imp ?_
    intro a b hab
    rw [hv] at hab
    omega
  · intro s
    apply jsSort_filter_eq
    intro a b ha hb
    rw [hv]
    simp only [beq_iff_eq] at ha hb
    omega

/-! ### Ranking by one maintenance type -/

theorem getOverdueMileage_num (truck : Truck) (k : String) :
    ∃ n : Int, TruckList.getOverdueMileage truck k = .num n := by
  unfold TruckList.getOverdueMileage
  by_cases hct : truck.currentMileage.truthy = true
  · obtain ⟨c, hc⟩ : ∃ c, truck.currentMileage = .num c := by
      cases h : truck.currentMileage <;> simp [h, JsNum.truthy] at hct
      exact ⟨_, rfl⟩
    have hcn : truck.currentMileage.toNumber = some c := by rw [hc]; rfl
    by_cases hi : (TruckList.overdueInterval truck k).truthy = true
    · by_cases hno : truck.noHistory = true
      · exact ⟨c, by simp only [hct, hi, hno]; simp [hc]⟩
      · cases hf : truck.findRecord k with
        | none => exact ⟨c, by simp only [hct, hi, hno]; simp [hc]⟩
        | some r =>
          cases hx : (r.mileage.add (TruckList.overdueInterval truck k)).toNumber with
          | none =>
            exact ⟨0, by simp only [hct, hi, hno, JsNum.ge, JsNum.sub, hcn, hx]; simp⟩
          | some y =>
            by_cases hle : y ≤ c
            · exact ⟨c - y, by
                simp only [hct, hi, hno, JsNum.ge, JsNum.sub, hcn, hx]; simp [hle]⟩
            · exact ⟨0, by
                simp only [hct, hi, hno, JsNum.ge, JsNum.sub, hcn, hx]; simp [hle]⟩
    · exact ⟨0, by simp only [hct, hi]; simp⟩
  · exact ⟨0, by simp only [hct]; simp⟩

theorem or_zero_num (v : JsNum) : ∃ n : Int, v.or (.num 0) = .num n := by
  cases v with
  | num n =>
    by_cases h : n = 0
    · exact ⟨0, by simp [JsNum.or, JsNum.truthy, h]⟩
    · exact ⟨n, by simp [JsNum.or, JsNum.truthy, h]⟩
  | undefined => exact ⟨0, by simp [JsNum.or, JsNum.truthy]⟩
  | null => exact ⟨0, by simp [JsNum.or, JsNum.truthy]⟩
  | nan => exact ⟨0, by simp [JsNum.or, JsNum.truthy]⟩

theorem compareMaintenanceType_value (now : Int) (k : String) (a b : Truck) :
    (TruckList.compareMaintenanceType now k a b).compareValue
      = taskKeyCompare (taskRankKey now k a) (taskRankKey now k b) := by
  obtain ⟨va, hva⟩ := getOverdueMileage_num a k
  obtain ⟨vb, hvb⟩ := getOverdueMileage_num b k
  obtain ⟨ca, hca⟩ := or_zero_num a.currentMileage
  obtain ⟨cb, hcb⟩ := or_zero_num b.currentMileage
  simp only [TruckList.compareMaintenanceType, taskKeyCompare, taskRankKey, hva, hvb, hca, hcb]
  split_ifs <;> simp [JsNum.compareValue, JsNum.toNumber, JsNum.sub]

theorem taskKeyCompare_total (x y : TaskRankKey) :
    taskKeyCompare x y ≤ 0 ∨ taskKeyCompare y x ≤ 0 := by
  obtain ⟨ox, sx, vx, ax, cx⟩ := x
  obtain ⟨oy, sy, vy, ay, cy⟩ := y
  simp only [taskKeyCompare]
  cases ox <;> cases oy <;> cases ax <;> cases ay <;> simp <;> split_ifs <;> omega

theorem taskKeyCompare_trans (x y z : TaskRankKey) (hxy : taskKeyCompare x y ≤ 0)
    (hyz : taskKeyCompare y z ≤ 0) : taskKeyCompare x z ≤ 0 := by
  obtain ⟨ox, sx, vx, ax, cx⟩ := x
  obtain ⟨oy, sy, vy, ay, cy⟩ := y
  obtain ⟨oz, sz, vz, az, cz⟩ := z
  simp only [taskKeyCompare] at hxy hyz ⊢
  cases ox <;> cases oy <;> cases oz <;> cases ax <;> cases ay <;> cases az <;>
    simp at hxy hyz ⊢ <;> split_ifs at hxy hyz ⊢ <;> omega

theorem sortedTrucks_of_kind (now : Int) (k : String) (hk : k ∈ maintenanceKinds)
    (sortByUrgency : Bool) (trucks : List Truck) :
    TruckList.sortedTrucks now k sortByUrgency trucks
      = jsSort (TruckList.compareMaintenanceType now k) trucks := by
  simp only [maintenanceKinds, List.mem_cons, List.mem_singleton, List.not_mem_nil,
    or_false] at hk
  rcases hk with rfl | rfl | rfl | rfl <;> simp [TruckList.sortedTrucks]

/-- In the ranking by one maintenance type a truck never comes before one it
compares greater than. -/
theorem pairwise_taskKeyCompare (now : Int) (k : String) (hk : k ∈ maintenanceKinds)
    (sortByUrgency : Bool) (trucks : List Truck) :
    (TruckList.sortedTrucks now k sortByUrgency trucks).Pairwise
      (fun x y => taskKeyCompare (taskRankKey now k x) (taskRankKey now k y) ≤ 0) := by
  rw [sortedTrucks_of_kind now k hk]
  have h := pairwise_jsSort (TruckList.compareMaintenanceType now k) (fun _ => True)
    (by
      intro a b _ _
      rw [compareMaintenanceType_value, compareMaintenanceType_value]
      exact taskKeyCompare_total _ _)
    (by
      intro a b c _ _ _
      rw [compareMaintenanceType_value, compareMaintenanceType_value,
        compareMaintenanceType_value]
      exact taskKeyCompare_trans _ _ _)
    trucks (fun _ _ => trivial)
  refine h.imp ?_
  intro a b hab
  rwa [compareMaintenanceType_value] at hab

/-- C14: in the ranking by one of the four maintenance kinds, which is a
permutation of the input, every truck that is overdue for the kind comes
before every truck that is not: whenever `x` stands before `y` and `y` is
overdue, `x` is overdue too. -/
theorem c14_overdue_first (now : Int) (k : String) (hk : k ∈ maintenanceKinds)
    (sortByUrgency : Bool) (trucks : List Truck) :
    (TruckList.sortedTrucks now k sortByUrgency trucks).Perm trucks ∧
      (TruckList.sortedTrucks now k sortByUrgency trucks).Pairwise
        (fun x y => TruckList.isMaintenanceOverdue now y k = true →
          TruckList.isMaintenanceOverdue now x k = true) := by
  refine ⟨?_, ?_⟩
  · rw [sortedTrucks_of_kind now k hk]
    exact jsSort_perm _ _
  · refine (pairwise_taskKeyCompare now k hk sortByUrgency trucks).imp ?_
    intro x y hxy hy
    simp only [taskKeyCompare, taskRankKey, hy] at hxy
    cases hx : TruckList.isMaintenanceOverdue now x k
    · simp [hx] at hxy
    · rfl

/-- Witness for C14: a truck overdue for oil by 1 km is ranked ahead of a
truck that is approaching but not due. -/
theorem c14_overdue_first_witness :
    ((TruckList.sortedTrucks 0 "oil" false
          [oilTruck 41600 34000 .absent, oilTruck 42001 34000 .absent]).Perm
        [oilTruck 41600 34000 .absent, oilTruck 42001 34000 .absent] ∧
      (TruckList.sortedTrucks 0 "oil" false
          [oilTruck 41600 34000 .absent, oilTruck 42001 34000 .absent]).Pairwise
        (fun x y => TruckList.isMaintenanceOverdue 0 y "oil" = true →
          TruckList.isMaintenanceOverdue 0 x "oil" = true)) ∧
      TruckList.sortedTrucks 0 "oil" false
          [oilTruck 41600 34000 .absent, oilTruck 42001 34000 .absent]
        = [oilTruck 42001 34000 .absent, oilTruck 41600 34000 .absent] :=
  ⟨c14_overdue_first 0 "oil" (by decide) false
    [oilTruck 41600 34000 .absent, oilTruck 42001 34000 .absent], by decide⟩

/-- C15: in the ranking by one of the four maintenance kinds, of two trucks
with the same overdue flag the one with the strictly higher per-type score
comes first, and of two overdue trucks with equal score the one with the
strictly greater overdue distance comes first: a truck standing before
another never has the lower score, nor (both overdue, equal score) the
smaller overdue distance. -/
theorem c15_score_then_overdue_distance (now : Int) (k : String) (hk : k ∈ maintenanceKinds)
    (sortByUrgency : Bool) (trucks : List Truck) :
    (TruckList.sortedTrucks now k sortByUrgency trucks).Pairwise
      (fun x y =>
        (TruckList.isMaintenanceOverdue now x k = TruckList.isMaintenanceOverdue now y k →
          TruckList.getMaintenanceTypeUrgencyScore now y k
            ≤ TruckList.getMaintenanceTypeUrgencyScore now x k) ∧
        (TruckList.isMaintenanceOverdue now x k = true →
          TruckList.isMaintenanceOverdue now y k = true →
          TruckList.getMaintenanceTypeUrgencyScore now x k
            = TruckList.getMaintenanceTypeUrgencyScore now y k →
          (TruckList.getOverdueMileage x k).lt (TruckList.getOverdueMileage y k) = false)) := by
  refine (pairwise_taskKeyCompare now k hk sortByUrgency trucks).imp ?_
  intro x y hxy
  obtain ⟨vx, hvx⟩ := getOverdueMileage_num x k
  obtain ⟨vy, hvy⟩ := getOverdueMileage_num y k
  simp only [taskKeyCompare, taskRankKey, hvx, hvy] at hxy
  have hcx : (JsNum.num vx).compareValue = vx := rfl
  have hcy : (JsNum.num vy).compareValue = vy := rfl
  rw [hcx, hcy] at hxy
  refine ⟨?_, ?_⟩
  · intro ho
    rw [ho] at hxy
    cases hy : TruckList.isMaintenanceOverdue now y k <;> simp only [hy] at hxy <;>
      simp at hxy <;> split_ifs at hxy <;> omega
  · intro hox hoy hs
    rw [hox, hoy, hs] at hxy
    simp at hxy
    simp [hvx, hvy, JsNum.lt, JsNum.toNumber]
    exact hxy

/-- Witness for C15: of two trucks overdue for oil with the same score, the
one overdue by 3000 is ranked ahead of the one overdue by 1000. -/
theorem c15_score_then_overdue_distance_witness :
    (TruckList.sortedTrucks 0 "oil" false
          [oilTruck 43000 34000 .absent, oilTruck 45000 34000 .absent]).Pairwise
        (fun x y =>
          (TruckList.isMaintenanceOverdue 0 x "oil" = TruckList.isMaintenanceOverdue 0 y "oil" →
            TruckList.getMaintenanceTypeUrgencyScore 0 y "oil"
              ≤ TruckList.getMaintenanceTypeUrgencyScore 0 x "oil") ∧
          (TruckList.isMaintenanceOverdue 0 x "oil" = true →
            TruckList.isMaintenanceOverdue 0 y "oil" = true →
            TruckList.getMaintenanceTypeUrgencyScore 0 x "oil"
              = TruckList.getMaintenanceTypeUrgencyScore 0 y "oil" →
            (TruckList.getOverdueMileage x "oil").lt (TruckList.getOverdueMileage y "oil")
              = false)) ∧
      TruckList.sortedTrucks 0 "oil" false
          [oilTruck 43000 34000 .absent, oilTruck 45000 34000 .absent]
        = [oilTruck 45000 34000 .absent, oilTruck 43000 34000 .absent] :=
  ⟨c15_score_then_overdue_distance 0 "oil" (by decide) false
    [oilTruck 43000 34000 .absent, oilTruck 45000 34000 .absent], by decide⟩

/-- C16 (code evaluated at the failing input): two trucks overdue for oil
with the same score (100) and the same overdue distance (2000) keep their
input order, although the second has the higher odometer: for two overdue
trucks the comparator returns `overdueB - overdueA` and never reaches the
odometer. Two trucks that are neither overdue nor approaching, with equal
scores, are ordered by descending odometer. -/
theorem c16_overdue_tie_ignores_odometer :
    (TruckList.isMaintenanceOverdue 0 (oilTruck 50000 40000 .absent) "oil" = true ∧
      TruckList.isMaintenanceOverdue 0 (oilTruck 60000 50000 .absent) "oil" = true ∧
      TruckList.getMaintenanceTypeUrgencyScore 0 (oilTruck 50000 40000 .absent) "oil" = 100 ∧
      TruckList.getMaintenanceTypeUrgencyScore 0 (oilTruck 60000 50000 .absent) "oil" = 100 ∧
      TruckList.getOverdueMileage (oilTruck 50000 40000 .absent) "oil" = .num 2000 ∧
      TruckList.getOverdueMileage (oilTruck 60000 50000 .absent) "oil" = .num 2000) ∧
      TruckList.compareMaintenanceType 0 "oil" (oilTruck 50000 40000 .absent)
        (oilTruck 60000 50000 .absent) = .num 0 ∧
      TruckList.sortedTrucks 0 "oil" false
          [oilTruck 50000 40000 .absent, oilTruck 60000 50000 .absent]
        = [oilTruck 50000 40000 .absent, oilTruck 60000 50000 .absent] ∧
      TruckList.sortedTrucks 0 "oil" false
          [oilTruck 35000 34000 .absent, oilTruck 36000 35000 .absent]
        = [oilTruck 36000 35000 .absent, oilTruck 35000 34000 .absent] := by
  decide

/-! ### Safety-inspection ranking -/

theorem compareSafetyInspection_value (now : Int) (a b : Truck)
    (ha : a.safetyInspectionExpiryDate ≠ .invalid)
    (hb : b.safetyInspectionExpiryDate ≠ .invalid) :
    (TruckList.compareSafetyInspection now a b).compareValue
      = safetyKeyCompare (safetyRankKey now a) (safetyRankKey now b) := by
  obtain ⟨ya, hya⟩ := or_zero_num a.year
  obtain ⟨yb, hyb⟩ := or_zero_num b.year
  cases hea : a.safetyInspectionExpiryDate with
  | invalid => exact absurd hea ha
  | absent =>
    cases heb : b.safetyInspectionExpiryDate with
    | invalid => exact absurd heb hb
    | absent =>
      simp [TruckList.compareSafetyInspection, safetyKeyCompare, safetyRankKey, hea, heb,
        JsDate.truthy, Truck.yearOrZero, hya, hyb, JsNum.sub, JsNum.toNumber,
        JsNum.compareValue]
    | valid eb =>
      simp [TruckList.compareSafetyInspection, safetyKeyCompare, safetyRankKey, hea, heb,
        JsDate.truthy, JsNum.toNumber, JsNum.compareValue]
  | valid ea =>
    cases heb : b.safetyInspectionExpiryDate with
    | invalid => exact absurd heb hb
    | absent =>
      simp [TruckList.compareSafetyInspection, safetyKeyCompare, safetyRankKey, hea, heb,
        JsDate.truthy, JsNum.toNumber, JsNum.compareValue]
    | valid eb =>
      simp only [TruckList.compareSafetyInspection, safetyKeyCompare, safetyRankKey, hea, heb,
        JsDate.truthy, TruckList.getSafetyInspectionExpiryDate, JsDate.newDate, dateSub]
      generalize TruckList.isSafetyInspectionDue now a = oa
      generalize TruckList.isSafetyInspectionDue now b = ob
      generalize TruckList.isSafetyInspectionApproachingDue now a = pa
      generalize TruckList.isSafetyInspectionApproachingDue now b = pb
      cases oa <;> cases ob <;> cases pa <;> cases pb <;>
        simp [JsNum.compareValue, JsNum.toNumber]

theorem safetyKeyCompare_total (x y : SafetyRankKey) :
    safetyKeyCompare x y ≤ 0 ∨ safetyKeyCompare y x ≤ 0 := by
  obtain ⟨hx, yx, ox, px, ex⟩ := x
  obtain ⟨hy, yy, oy, py, ey⟩ := y
  simp only [safetyKeyCompare]
  cases hx <;> cases hy <;> cases ox <;> cases oy <;> cases px <;> cases py <;>
    simp <;> omega

theorem safetyKeyCompare_trans (x y z : SafetyRankKey) (hxy : safetyKeyCompare x y ≤ 0)
    (hyz : safetyKeyCompare y z ≤ 0) : safetyKeyCompare x z ≤ 0 := by
  obtain ⟨hx, yx, ox, px, ex⟩ := x
  obtain ⟨hy, yy, oy, py, ey⟩ := y
  obtain ⟨hz, yz, oz, pz, ez⟩ := z
  simp only [safetyKeyCompare] at hxy hyz ⊢
  cases hx <;> cases hy <;> cases hz <;> simp at hxy hyz ⊢ <;>
    first
      | omega
      | (cases ox <;> cases oy <;> cases oz <;> simp at hxy hyz ⊢ <;>
          first
            | omega
            | (cases px <;> cases py <;> cases pz <;> simp at hxy hyz ⊢ <;> omega))

/-- In the safety-inspection ranking of trucks whose expiry dates parse, a
truck never comes before one it compares greater than. -/
theorem pairwise_safetyKeyCompare (now : Int) (sortByUrgency : Bool) (trucks : List Truck)
    (hvalid : ∀ t ∈ trucks, t.safetyInspectionExpiryDate ≠ .invalid) :
    (TruckList.sortedTrucks now "safetyInspection" sortByUrgency trucks).Pairwise
      (fun x y => safetyKeyCompare (safetyRankKey now x) (safetyRankKey now y) ≤ 0) := by
  have hs : TruckList.sortedTrucks now "safetyInspection" sortByUrgency trucks
      = jsSort (TruckList.compareSafetyInspection now) trucks := by
    simp [TruckList.sortedTrucks]
  rw [hs]
  have h := pairwise_jsSort (TruckList.compareSafetyInspection now)
    (fun t => t.safetyInspectionExpiryDate ≠ .invalid)
    (by
      intro a b ha hb
      rw [compareSafetyInspection_value now a b ha hb,
        compareSafetyInspection_value now b a hb ha]
      exact safetyKeyCompare_total _ _)
    (by
      intro a b c ha hb hc
      rw [compareSafetyInspection_value now a b ha hb,
        compareSafetyInspection_value now b c hb hc,
        compareSafetyInspection_value now a c ha hc]
      exact safetyKeyCompare_trans _ _ _)
    trucks hvalid
  have hmem : ∀ x ∈ jsSort (TruckList.compareSafetyInspection now) trucks,
      x.safetyInspectionExpiryDate ≠ .invalid :=
    fun x hx => hvalid x ((jsSort_perm _ trucks).mem_iff.mp hx)
  refine ((List.Pairwise.and_mem.mp h).imp ?_)
  rintro a b ⟨ha, hb, hab⟩
  rwa [compareSafetyInspection_value now a b (hmem a ha) (hmem b hb)] at hab

/-- C17: in the safety-inspection ranking of trucks whose expiry dates are
absent or parse, which is a permutation of the input, every truck without an
expiry date comes before every truck with one, and of two trucks without one
the truck with the larger model year (a missing year counting as 0) comes
first: a truck standing before another is never the one with an expiry date
against one without, nor the one with the smaller year among two without. -/
theorem c17_no_inspection_first (now : Int) (sortByUrgency : Bool) (trucks : List Truck)
    (hvalid : ∀ t ∈ trucks, t.safetyInspectionExpiryDate ≠ .invalid) :
    (TruckList.sortedTrucks now "safetyInspection" sortByUrgency trucks).Perm trucks ∧
      (TruckList.sortedTrucks now "safetyInspection" sortByUrgency trucks).Pairwise
        (fun x y =>
          (y.safetyInspectionExpiryDate = .absent → x.safetyInspectionExpiryDate = .absent) ∧
          (x.safetyInspectionExpiryDate = .absent → y.safetyInspectionExpiryDate = .absent →
            y.yearOrZero ≤ x.yearOrZero)) := by
  refine ⟨?_, ?_⟩
  · have hs : TruckList.sortedTrucks now "safetyInspection" sortByUrgency trucks
        = jsSort (TruckList.compareSafetyInspection now) trucks := by
      simp [TruckList.sortedTrucks]
    rw [hs]
    exact jsSort_perm _ _
  · refine (pairwise_safetyKeyCompare now sortByUrgency trucks hvalid).imp ?_
    intro x y hxy
    simp only [safetyKeyCompare, safetyRankKey] at hxy
    refine ⟨?_, ?_⟩
    · intro hy
      rw [hy] at hxy
      cases hx : x.safetyInspectionExpiryDate with
      | absent => rfl
      | invalid => simp [hx, JsDate.truthy] at hxy
      | valid e => simp [hx, JsDate.truthy] at hxy
    · intro hx hy
      rw [hx, hy] at hxy
      simp [JsDate.truthy] at hxy
      exact hxy

/-- Witness for C17: two trucks without an expiry date (years 2020 and 2022)
and one with an expiry date. -/
theorem c17_no_inspection_first_witness :
    ((TruckList.sortedTrucks 0 "safetyInspection" false
          [inspectionTruck (.num 2021) (.valid (400 * msPerDay)),
            inspectionTruck (.num 2020) .absent, inspectionTruck (.num 2022) .absent]).Perm
        [inspectionTruck (.num 2021) (.valid (400 * msPerDay)),
          inspectionTruck (.num 2020) .absent, inspectionTruck (.num 2022) .absent] ∧
      (TruckList.sortedTrucks 0 "safetyInspection" false
          [inspectionTruck (.num 2021) (.valid (400 * msPerDay)),
            inspectionTruck (.num 2020) .absent, inspectionTruck (.num 2022) .absent]).Pairwise
        (fun x y =>
          (y.safetyInspectionExpiryDate = .absent → x.safetyInspectionExpiryDate = .absent) ∧
          (x.safetyInspectionExpiryDate = .absent → y.safetyInspectionExpiryDate = .absent →
            y.yearOrZero ≤ x.yearOrZero))) ∧
      TruckList.sortedTrucks 0 "safetyInspection" false
          [inspectionTruck (.num 2021) (.valid (400 * msPerDay)),
            inspectionTruck (.num 2020) .absent, inspectionTruck (.num 2022) .absent]
        = [inspectionTruck (.num 2022) .absent, inspectionTruck (.num 2020) .absent,
            inspectionTruck (.num 2021) (.valid (400 * msPerDay))] :=
  ⟨c17_no_inspection_first 0 false
    [inspectionTruck (.num 2021) (.valid (400 * msPerDay)),
      inspectionTruck (.num 2020) .absent, inspectionTruck (.num 2022) .absent]
    (by decide), by decide⟩

/-- C18 (code evaluated at the failing input): at `now = 0` a truck whose
expiry date is `now` itself and a truck whose expiry date is 10 days ahead are
both non-expired (`now > expiry` fails) and both expire within 30 days
(`expiry < now + 30 days`), so the one with the earlier expiry date should
come first. The ranking puts the other one first: the list's approaching check
also requires `expiry > now` and is false for the first truck, which the card
shows as `approaching`. -/
theorem c18_expiry_now_ranked_last :
    (¬ ((0 : Int) > 0) ∧ ¬ ((0 : Int) > 10 * msPerDay)) ∧
      ((0 : Int) < addDays 0 30 ∧ 10 * msPerDay < addDays 0 30) ∧
      (0 : Int) < 10 * msPerDay ∧
      TruckList.sortedTrucks 0 "safetyInspection" false
          [inspectionTruck (.num 2020) (.valid 0),
            inspectionTruck (.num 2020) (.valid (10 * msPerDay))]
        = [inspectionTruck (.num 2020) (.valid (10 * msPerDay)),
            inspectionTruck (.num 2020) (.valid 0)] ∧
      TruckList.isSafetyInspectionDue 0 (inspectionTruck (.num 2020) (.valid 0)) = false ∧
      TruckList.isSafetyInspectionApproachingDue 0 (inspectionTruck (.num 2020) (.valid 0))
        = false ∧
      TruckCard.getSafetyInspectionStatus 0 (inspectionTruck (.num 2020) (.valid 0))
        = .ok Status.approaching ∧
      TruckList.isSafetyInspectionApproachingDue 0
          (inspectionTruck (.num 2020) (.valid (10 * msPerDay))) = true ∧
      TruckCard.getSafetyInspectionStatus 0
          (inspectionTruck (.num 2020) (.valid (10 * msPerDay))) = .ok Status.approaching := by
  refine ⟨by decide, by decide, by decide, by decide, by decide, by decide, rfl, by decide, rfl⟩

/-- The order the safety-inspection ranking keeps, for trucks whose expiry
dates are absent or parse and a truck with expiry date `ex` standing before a
truck with expiry date `ey`: if the second is expired (`now > ey`) so is the
first; if both are expired then `ex <= ey`; if neither is expired and the
second passes the list's approaching check (`now < ey < now + 30 days`), so
does the first; and if neither is expired and both or neither pass it, then
`ex <= ey`. -/
theorem safetyRanking_order (now : Int) (sortByUrgency : Bool) (trucks : List Truck)
    (hvalid : ∀ t ∈ trucks, t.safetyInspectionExpiryDate ≠ .invalid) :
    (TruckList.sortedTrucks now "safetyInspection" sortByUrgency trucks).Pairwise
      (fun x y => ∀ ex ey : Int,
        x.safetyInspectionExpiryDate = .valid ex → y.safetyInspectionExpiryDate = .valid ey →
          (ey < now → ex < now) ∧
          (ex < now → ey < now → ex ≤ ey) ∧
          (¬ ex < now → ¬ ey < now →
            ((now < ey ∧ ey < addDays now 30) → (now < ex ∧ ex < addDays now 30)) ∧
            (((now < ex ∧ ex < addDays now 30) ↔ (now < ey ∧ ey < addDays now 30)) →
              ex ≤ ey))) := by
  refine (pairwise_safetyKeyCompare now sortByUrgency trucks hvalid).imp ?_
  intro x y hxy ex ey hx hy
  simp only [safetyKeyCompare, safetyRankKey, TruckList.isSafetyInspectionDue,
    TruckList.isSafetyInspectionApproachingDue, hx, hy, JsDate.truthy, JsDate.newDate,
    isAfter] at hxy
  by_cases h1 : ex < now <;> by_cases h2 : ey < now <;>
    by_cases h3 : ex < addDays now 30 <;> by_cases h4 : ey < addDays now 30 <;>
    by_cases h5 : now < ex <;> by_cases h6 : now < ey <;>
    simp [h1, h2, h3, h4, h5, h6] at hxy ⊢ <;>
    omega

/-- Example of the ranking: an expired truck, a truck expiring in 10 days, a
truck expiring in 100 days and a truck that expired earlier, at `now = 0`. -/
theorem safetyRanking_order_example :
    (TruckList.sortedTrucks 0 "safetyInspection" false
          [inspectionTruck (.num 2020) (.valid (100 * msPerDay)),
            inspectionTruck (.num 2020) (.valid (-(5 * msPerDay))),
            inspectionTruck (.num 2020) (.valid (10 * msPerDay)),
            inspectionTruck (.num 2020) (.valid (-(50 * msPerDay)))]).Pairwise
        (fun x y => ∀ ex ey : Int,
          x.safetyInspectionExpiryDate = .valid ex → y.safetyInspectionExpiryDate = .valid ey →
            (ey < 0 → ex < 0) ∧
            (ex < 0 → ey < 0 → ex ≤ ey) ∧
            (¬ ex < 0 → ¬ ey < 0 →
              (((0 : Int) < ey ∧ ey < addDays 0 30) → ((0 : Int) < ex ∧ ex < addDays 0 30)) ∧
              ((((0 : Int) < ex ∧ ex < addDays 0 30) ↔ ((0 : Int) < ey ∧ ey < addDays 0 30)) →
                ex ≤ ey))) ∧
      TruckList.sortedTrucks 0 "safetyInspection" false
          [inspectionTruck (.num 2020) (.valid (100 * msPerDay)),
            inspectionTruck (.num 2020) (.valid (-(5 * msPerDay))),
            inspectionTruck (.num 2020) (.valid (10 * msPerDay)),
            inspectionTruck (.num 2020) (.valid (-(50 * msPerDay)))]
        = [inspectionTruck (.num 2020) (.valid (-(50 * msPerDay))),
            inspectionTruck (.num 2020) (.valid (-(5 * msPerDay))),
            inspectionTruck (.num 2020) (.valid (10 * msPerDay)),
            inspectionTruck (.num 2020) (.valid (100 * msPerDay))] :=
  ⟨safetyRanking_order 0 false
    [inspectionTruck (.num 2020) (.valid (100 * msPerDay)),
      inspectionTruck (.num 2020) (.valid (-(5 * msPerDay))),
      inspectionTruck (.num 2020) (.valid (10 * msPerDay)),
      inspectionTruck (.num 2020) (.valid (-(50 * msPerDay)))]
    (by decide), by decide⟩

/-! ### Default and untracked intervals -/

/-- C19 (code evaluated at the failing input): for a km truck at 40000 with no
oil interval and an oil record at 34000, the card computes the next-due
distance 39000 (`34000 + 5000`, the miles default) and shows `due`, and the
list's due check is true, where the default of the truck's unit gives
`34000 + 8000 = 42000`; the detail page does use 8000 and shows `ok` with
next-due distance 42000. -/
theorem c19_km_truck_gets_miles_default :
    (oilTruckWithInterval .null 40000 34000 .absent).distanceUnit = some "km" ∧
      (TruckCard.getMaintenanceStatus 0 (oilTruckWithInterval .null 40000 34000 .absent)
        "oil").nextMileage = NextMileage.text (.num 39000) ∧
      (TruckCard.getMaintenanceStatus 0 (oilTruckWithInterval .null 40000 34000 .absent)
        "oil").status = Status.due ∧
      TruckList.checkMaintenanceTypeDue 0 (oilTruckWithInterval .null 40000 34000 .absent)
        "oil" (oilTruckWithInterval .null 40000 34000 .absent).oilChangeMileageInterval
        = true ∧
      TruckList.effectiveInterval "oil"
        (oilTruckWithInterval .null 40000 34000 .absent).oilChangeMileageInterval
        = .num 5000 ∧
      (TruckDetail.getMaintenanceStatus 0 (oilTruckWithInterval .null 40000 34000 .absent)
        "oil").nextMileage = NextMileage.value (.num 42000) ∧
      (TruckDetail.getMaintenanceStatus 0 (oilTruckWithInterval .null 40000 34000 .absent)
        "oil").status = Status.ok := by
  decide

/-- Counterexample to C20 as stated: with a stored oil interval of -5000 the
effective interval is not positive, yet a truck that holds an oil record gets
status `ok`, not `unknown`. -/
theorem c20_record_with_untracked_interval_counterexample :
    (TruckCard.intervalFor (oilTruckWithInterval (.num (-5000)) 40000 34000 .absent) "oil").gt
        (.num 0) = false ∧
      (TruckCard.getMaintenanceStatus 0
        (oilTruckWithInterval (.num (-5000)) 40000 34000 .absent) "oil").status = Status.ok ∧
      (TruckCard.getMaintenanceStatus 0
        (oilTruckWithInterval (.num (-5000)) 40000 34000 .absent) "oil").status
        ≠ Status.unknown := by
  decide

/-- C20 (amended): for a truck and type whose effective interval is not
positive, the card returns `unknown` with no next-due distance when the
history holds no record of the type; when it holds one, the next-due distance
is `'N/A'` and the status is `due` if the record's next-due date is in the
past and `ok` otherwise, never `unknown`. -/
theorem c20_untracked_interval (now : Int) (truck : Truck) (k : String)
    (hint : (TruckCard.intervalFor truck k).gt (.num 0) = false) :
    (truck.findRecord k = none →
        (TruckCard.getMaintenanceStatus now truck k).status = Status.unknown ∧
          (TruckCard.getMaintenanceStatus now truck k).nextMileage
            = NextMileage.value .undefined) ∧
      (∀ r, truck.findRecord k = some r →
        (TruckCard.getMaintenanceStatus now truck k).nextMileage = NextMileage.na ∧
          (TruckCard.getMaintenanceStatus now truck k).status
            = if isAfter (some now) r.nextDate.newDate = true then Status.due
              else Status.ok) := by
  refine ⟨?_, ?_⟩
  · intro hnone
    simp [TruckCard.getMaintenanceStatus, hnone, hint]
  · intro r hr
    simp only [TruckCard.getMaintenanceStatus, TruckCard.isMaintenanceDue, hr, hint]
    cases hd : r.nextDate <;>
      simp [JsNum.truthy, JsDate.truthy, JsDate.newDate, isAfter]

/-- Witness for C20: the truck with oil interval -5000 and an oil record, and
the same truck asked about a type it has no record of. -/
theorem c20_untracked_interval_witness :
    (TruckCard.getMaintenanceStatus 0
        (oilTruckWithInterval (.num (-5000)) 40000 34000 .absent) "oil").nextMileage
        = NextMileage.na ∧
      (TruckCard.getMaintenanceStatus 0
        (oilTruckWithInterval (.num (-5000)) 40000 34000 .absent) "oil").status
        = if isAfter (some 0) (oilRecord 34000 .absent).nextDate.newDate = true then Status.due
          else Status.ok :=
  (c20_untracked_interval 0 (oilTruckWithInterval (.num (-5000)) 40000 34000 .absent) "oil"
    (by decide)).2 (oilRecord 34000 .absent) (by decide)

/-! ### Several records of one kind -/

/-- C21 (code evaluated at the failing input): a truck at 42000 with oil
interval 8000 holds two oil records, one dated day 0 at odometer 10000 and one
dated day 100 at odometer 40000. `getLatestMaintenance` of the QR sheet picks
the record of day 100 in either order of the history, but the card and the
list use the first record in history order: with the older record first the
card shows `due` against 18000 and the list's due check is true, with the
newer record first the card shows `ok` against 48000 and the check is false. -/
theorem c21_first_record_not_latest :
    (QRCodePrint.getLatestMaintenance
        (truckWithHistory (some [datedOilRecord 0 10000, datedOilRecord (100 * msPerDay) 40000]))
        "oil" = some (datedOilRecord (100 * msPerDay) 40000) ∧
      QRCodePrint.getLatestMaintenance
        (truckWithHistory (some [datedOilRecord (100 * msPerDay) 40000, datedOilRecord 0 10000]))
        "oil" = some (datedOilRecord (100 * msPerDay) 40000)) ∧
      ((TruckCard.getMaintenanceStatus (200 * msPerDay)
          (truckWithHistory
            (some [datedOilRecord 0 10000, datedOilRecord (100 * msPerDay) 40000]))
          "oil").status = Status.due ∧
        (TruckCard.getMaintenanceStatus (200 * msPerDay)
          (truckWithHistory
            (some [datedOilRecord 0 10000, datedOilRecord (100 * msPerDay) 40000]))
          "oil").nextMileage = NextMileage.text (.num 18000) ∧
        TruckList.checkMaintenanceTypeDue (200 * msPerDay)
          (truckWithHistory
            (some [datedOilRecord 0 10000, datedOilRecord (100 * msPerDay) 40000]))
          "oil" (.num 8000) = true) ∧
      ((TruckCard.getMaintenanceStatus (200 * msPerDay)
          (truckWithHistory
            (some [datedOilRecord (100 * msPerDay) 40000, datedOilRecord 0 10000]))
          "oil").status = Status.ok ∧
        (TruckCard.getMaintenanceStatus (200 * msPerDay)
          (truckWithHistory
            (some [datedOilRecord (100 * msPerDay) 40000, datedOilRecord 0 10000]))
          "oil").nextMileage = NextMileage.text (.num 48000) ∧
        TruckList.checkMaintenanceTypeDue (200 * msPerDay)
          (truckWithHistory
            (some [datedOilRecord (100 * msPerDay) 40000, datedOilRecord 0 10000]))
          "oil" (.num 8000) = false) := by
  decide

/-! ### Unit conversion -/

/-- C22: in exact arithmetic, converting a distance from km to miles and back
to km gives a value within 1 of the original, for every integer `x` and so
for every non-negative one. -/
theorem c22_km_round_trip_within_one (x : Int) :
    x - 1 ≤ convertMilesToKm (convertKmToMiles x)
      ∧ convertMilesToKm (convertKmToMiles x) ≤ x + 1 := by
  unfold convertMilesToKm convertKmToMiles mathRound
  omega

/-- The round trip from km is not exact: 1 km becomes 1 mile and comes back
as 2 km. -/
theorem km_round_trip_drifts :
    convertKmToMiles 1 = 1 ∧ convertMilesToKm (convertKmToMiles 1) = 2 := by
  decide

/-- C29: in exact arithmetic, converting a distance from miles to km and back
to miles returns the original value, for every integer `x` and so for every
non-negative one. -/
theorem c29_miles_round_trip_exact (x : Int) :
    convertKmToMiles (convertMilesToKm x) = x := by
  unfold convertMilesToKm convertKmToMiles mathRound
  omega

/-- For instance 5000 miles become 8047 km. -/
theorem convertMilesToKm_5000 : convertMilesToKm 5000 = 8047 := by
  decide

/-! ### Due, approaching and the dashboard check -/

/-- C25: due and approaching exclude each other, for a maintenance type with
any interval and for the safety inspection; hence the aggregate score takes
for each item at most one of its two weights. -/
theorem c25_due_approaching_exclusive (now : Int) (truck : Truck) :
    (∀ (k : String) (interval : JsNum),
        ¬ (TruckList.checkMaintenanceTypeDue now truck k interval = true
          ∧ TruckList.isMaintenanceApproachingDue now truck k interval = true)) ∧
      ¬ (TruckList.isSafetyInspectionDue now truck = true
        ∧ TruckList.isSafetyInspectionApproachingDue now truck = true) ∧
      TruckList.getUrgencyScore now truck = exclusiveUrgency now truck := by
  refine ⟨?_, ?_, ?_⟩
  · rintro k interval ⟨hd, ha⟩
    rw [isMaintenanceApproachingDue_eq_false_of_due now truck k interval hd] at ha
    exact Bool.false_ne_true ha
  · rintro ⟨hd, ha⟩
    rw [isSafetyInspectionApproachingDue_eq_false_of_due now truck hd] at ha
    exact Bool.false_ne_true ha
  · have key : ∀ (d a : Bool) (x y : Nat), (d = true → a = false) →
        (if d = true then x else if a = true then y else 0)
          = (if d = true then x else 0) + (if a = true then y else 0) := by
      intro d a x y h
      cases d <;> cases a <;> simp_all
    have k1 := key _ _ 100 50 (itemApproaching_eq_false_of_itemDue now truck "oil")
    have k2 := key _ _ 90 45 (itemApproaching_eq_false_of_itemDue now truck "airFilter")
    have k3 := key _ _ 80 40 (itemApproaching_eq_false_of_itemDue now truck "fuelFilter")
    have k4 := key _ _ 70 35 (itemApproaching_eq_false_of_itemDue now truck "dpfCleaning")
    have k5 := key _ _ 110 55 (itemApproaching_eq_false_of_itemDue now truck "safetyInspection")
    have d1 : itemDue now truck "oil"
        = TruckList.checkMaintenanceTypeDue now truck "oil" truck.oilChangeMileageInterval := rfl
    have d2 : itemDue now truck "airFilter"
        = TruckList.checkMaintenanceTypeDue now truck "airFilter"
            truck.airFilterMileageInterval := rfl
    have d3 : itemDue now truck "fuelFilter"
        = TruckList.checkMaintenanceTypeDue now truck "fuelFilter"
            truck.fuelFilterMileageInterval := rfl
    have d4 : itemDue now truck "dpfCleaning"
        = TruckList.checkMaintenanceTypeDue now truck "dpfCleaning"
            truck.dpfCleaningMileageInterval := rfl
    have d5 : itemDue now truck "safetyInspection"
        = TruckList.isSafetyInspectionDue now truck := rfl
    have a1 : itemApproaching now truck "oil"
        = TruckList.isMaintenanceApproachingDue now truck "oil"
            truck.oilChangeMileageInterval := rfl
    have a2 : itemApproaching now truck "airFilter"
        = TruckList.isMaintenanceApproachingDue now truck "airFilter"
            truck.airFilterMileageInterval := rfl
    have a3 : itemApproaching now truck "fuelFilter"
        = TruckList.isMaintenanceApproachingDue now truck "fuelFilter"
            truck.fuelFilterMileageInterval := rfl
    have a4 : itemApproaching now truck "dpfCleaning"
        = TruckList.isMaintenanceApproachingDue now truck "dpfCleaning"
            truck.dpfCleaningMileageInterval := rfl
    have a5 : itemApproaching now truck "safetyInspection"
        = TruckList.isSafetyInspectionApproachingDue now truck := rfl
    have w1 : dueWeight "oil" = 100 := rfl
    have w2 : dueWeight "airFilter" = 90 := rfl
    have w3 : dueWeight "fuelFilter" = 80 := rfl
    have w4 : dueWeight "dpfCleaning" = 70 := rfl
    have w5 : dueWeight "safetyInspection" = 110 := rfl
    have v1 : approachingWeight "oil" = 50 := rfl
    have v2 : approachingWeight "airFilter" = 45 := rfl
    have v3 : approachingWeight "fuelFilter" = 40 := rfl
    have v4 : approachingWeight "dpfCleaning" = 35 := rfl
    have v5 : approachingWeight "safetyInspection" = 55 := rfl
    simp only [TruckList.getUrgencyScore, exclusiveUrgency, urgencyItems, List.map,
      List.sum_cons, List.sum_nil, ite_add_weight, w1, w2, w3, w4, w5, v1, v2, v3, v4, v5,
      k1, k2, k3, k4, k5]
    simp only [d1, d2, d3, d4, d5, a1, a2, a3, a4, a5]
    omega

/-- C28: the dashboard's per-task check is the list's due check or the list's
approaching check, for every truck, type, interval and `now`. -/
theorem c28_dashboard_is_due_or_approaching (now : Int) (truck : Truck) (kind : String)
    (interval : JsNum) :
    Dashboard.checkMaintenanceTypeDue now truck kind interval
      = (TruckList.checkMaintenanceTypeDue now truck kind interval
        || TruckList.isMaintenanceApproachingDue now truck kind interval) := by
  unfold TruckList.isMaintenanceApproachingDue
  simp only [checkMaintenanceTypeDue_effectiveInterval]
  unfold Dashboard.checkMaintenanceTypeDue TruckList.checkMaintenanceTypeDue
  generalize TruckList.effectiveInterval kind interval = eff
  by_cases hi : eff.truthy = true
  · obtain ⟨i, hi2⟩ : ∃ i, eff = .num i := by
      cases h : eff <;> simp [h, JsNum.truthy] at hi
      exact ⟨_, rfl⟩
    subst hi2
    by_cases hno : truck.noHistory = true
    · simp [hi, hno]
    · cases hf : truck.findRecord kind with
      | none => simp [hi, hno]
      | some r =>
        simp only [hi, hno]
        by_cases hu : truck.distanceUnit = some "miles" <;>
          cases hd : r.nextDate <;> cases hc : truck.currentMileage <;>
          cases hm : r.mileage <;>
          simp [hu, JsNum.truthy, JsDate.truthy, JsDate.newDate, isAfter, JsNum.ge, JsNum.lt,
            JsNum.add, JsNum.toNumber] <;>
          rw [Bool.eq_iff_iff] <;> simp <;> omega
  · simp [hi]

theorem effectiveInterval_intervalField (truck : Truck) (k : String)
    (hk : k ∈ maintenanceKinds) :
    TruckList.effectiveInterval k (truck.intervalField k) = TruckCard.intervalFor truck k := by
  simp only [maintenanceKinds, List.mem_cons, List.mem_singleton, List.not_mem_nil,
    or_false] at hk
  rcases hk with rfl | rfl | rfl | rfl <;>
    simp only [TruckList.effectiveInterval, Truck.intervalField, TruckCard.intervalFor,
      JsNum.or] <;>
    split_ifs <;> simp_all

theorem effectiveInterval_pos {k : String} (hk : k ∈ maintenanceKinds) (v : JsNum) (i : Int)
    (hv : ∀ n, v = .num n → 0 ≤ n) (hi : TruckList.effectiveInterval k v = .num i) :
    0 < i := by
  simp only [maintenanceKinds, List.mem_cons, List.mem_singleton, List.not_mem_nil,
    or_false] at hk
  cases v with
  | num n =>
    have hn := hv n rfl
    by_cases hn0 : n = 0
    · rcases hk with rfl | rfl | rfl | rfl <;>
        simp [TruckList.effectiveInterval, JsNum.truthy, hn0] at hi <;> omega
    · simp [TruckList.effectiveInterval, JsNum.truthy, hn0] at hi
      omega
  | undefined =>
    rcases hk with rfl | rfl | rfl | rfl <;>
      simp [TruckList.effectiveInterval, JsNum.truthy] at hi <;> omega
  | null =>
    rcases hk with rfl | rfl | rfl | rfl <;>
      simp [TruckList.effectiveInterval, JsNum.truthy] at hi <;> omega
  | nan =>
    rcases hk with rfl | rfl | rfl | rfl <;>
      simp [TruckList.effectiveInterval, JsNum.truthy] at hi <;> omega

/-- With a record, the card status is `due` exactly when `isMaintenanceDue`
holds of the record's next-due date and the next-due distance. -/
theorem cardStatus_due_iff (now : Int) (truck : Truck) (k : String) (r : MaintenanceRecord)
    (hf : truck.findRecord k = some r) :
    (TruckCard.getMaintenanceStatus now truck k).status = Status.due ↔
      TruckCard.isMaintenanceDue now truck r.nextDate
        (if (TruckCard.intervalFor truck k).gt (.num 0) && r.mileage.truthy
          then r.mileage.add (TruckCard.intervalFor truck k) else .null) = true := by
  simp only [TruckCard.getMaintenanceStatus, hf, Bool.and_eq_true]
  generalize TruckCard.isMaintenanceDue now truck r.nextDate _ = d
  cases d
  · simp only [Bool.false_eq_true, if_false]
    split_ifs <;> simp
  · simp

/-- C27: for one of the four kinds, when the truck's interval for the kind is
absent or non-negative and the service reading of the record the evaluators
use is non-negative, the list's due check with the truck's interval is true
exactly when the card status is `due`. -/
theorem c27_list_due_iff_card_due (now : Int) (truck : Truck) (k : String)
    (hk : k ∈ maintenanceKinds)
    (hint : ∀ n, truck.intervalField k = .num n → 0 ≤ n)
    (hrec : ∀ r, truck.findRecord k = some r → ∀ m, r.mileage = .num m → 0 ≤ m) :
    TruckList.checkMaintenanceTypeDue now truck k (truck.intervalField k) = true ↔
      (TruckCard.getMaintenanceStatus now truck k).status = Status.due := by
  obtain ⟨i, hi0, hi⟩ := effectiveInterval_of_kind hk (truck.intervalField k)
  have hcard : TruckCard.intervalFor truck k = .num i := by
    rw [← effectiveInterval_intervalField truck k hk, hi]
  have hipos : 0 < i := effectiveInterval_pos hk _ i hint hi
  cases hf : truck.findRecord k with
  | none =>
    unfold TruckList.checkMaintenanceTypeDue
    simp only [TruckCard.getMaintenanceStatus, hi, hcard, hf]
    by_cases hno : truck.noHistory = true <;>
      simp [hno, JsNum.truthy, JsNum.gt, JsNum.toNumber, hi0, hipos]
  | some r =>
    have hno := noHistory_eq_false_of_findRecord hf
    have hm := hrec r hf
    rw [cardStatus_due_iff now truck k r hf]
    unfold TruckList.checkMaintenanceTypeDue
    simp only [TruckCard.isMaintenanceDue, hi, hcard, hf, hno]
    cases hd : r.nextDate <;> cases hc : truck.currentMileage <;> cases hmm : r.mileage <;>
      simp [JsNum.truthy, JsDate.truthy, JsDate.newDate, isAfter, JsNum.ge, JsNum.gt,
        JsNum.add, JsNum.toNumber, hi0, hipos]
    all_goals
      rename_i c m
      have h0 := hm m hmm
      have hN : m = 0 ∨ m + i ≠ 0 := by omega
      by_cases hz : m = 0
      · simp [hz]
      · simp [hz]
        omega

/-- Witness for C27: the truck at 42000 with an oil record at 34000 and
interval 8000 is due for the list and for the card. -/
theorem c27_list_due_iff_card_due_witness :
    TruckList.checkMaintenanceTypeDue 0 (oilTruck 42000 34000 .absent) "oil"
        ((oilTruck 42000 34000 .absent).intervalField "oil") = true ↔
      (TruckCard.getMaintenanceStatus 0 (oilTruck 42000 34000 .absent) "oil").status
        = Status.due :=
  c27_list_due_iff_card_due 0 (oilTruck 42000 34000 .absent) "oil" (by decide)
    (by
      intro n hn
      have h : n = 8000 := by
        have h2 : (JsNum.num 8000 : JsNum) = .num n := hn
        injection h2 with h3
        exact h3.symm
      omega)
    (by
      intro r hr m hm
      have h1 : r = oilRecord 34000 .absent := by
        have h2 : some (oilRecord 34000 .absent) = some r := hr
        injection h2 with h3
        exact h3.symm
      subst h1
      have h4 : (JsNum.num 34000 : JsNum) = .num m := hm
      injection h4 with h5
      omega)

/-! ### Missing record fields -/

/-- C23: for a truck with a record `r` of the type and a positive interval
`i`, the record's own `date` being missing or a date, the call returns a
status object. If the record has no next-due date the status does not depend
on `now` and is decided by the distance checks: `due` exactly when the
odometer and the reading are non-zero and the odometer has reached reading +
interval, `approaching` exactly when it is not due and the distance is within
the threshold. If the record has no service reading the status is decided by
the date: `due` when the next-due date is in the past, `ok` otherwise. If it
has neither the status is `ok`. -/
theorem c23_missing_fields (now : Int) (truck : Truck) (k : String)
    (r : MaintenanceRecord) (i : Int) (hf : truck.findRecord k = some r)
    (hi : TruckCard.intervalFor truck k = .num i) (hipos : 0 < i)
    (hdate : r.date ≠ .invalid) :
    TruckCard.getMaintenanceStatusResult now truck k
        = .ok (TruckCard.getMaintenanceStatus now truck k) ∧
      (r.nextDate = .absent →
        (∀ now' : Int, (TruckCard.getMaintenanceStatus now' truck k).status
            = (TruckCard.getMaintenanceStatus now truck k).status) ∧
          ((TruckCard.getMaintenanceStatus now truck k).status = Status.due ↔
            ∃ c m, truck.currentMileage = .num c ∧ c ≠ 0 ∧ r.mileage = .num m ∧ m ≠ 0
              ∧ m + i ≠ 0 ∧ m + i ≤ c) ∧
          ((TruckCard.getMaintenanceStatus now truck k).status = Status.approaching ↔
            (TruckCard.getMaintenanceStatus now truck k).status ≠ Status.due
              ∧ TruckCard.isMileageApproachingDue truck r.mileage (.num i) = true)) ∧
      (r.mileage.truthy = false →
        (TruckCard.getMaintenanceStatus now truck k).status
          = if isAfter (some now) r.nextDate.newDate = true then Status.due else Status.ok) ∧
      (r.nextDate = .absent → r.mileage.truthy = false →
        (TruckCard.getMaintenanceStatus now truck k).status = Status.ok) := by
  have hgt : (JsNum.num i).gt (.num 0) = true := by simp [JsNum.gt, JsNum.toNumber, hipos]
  refine ⟨?_, ?_, ?_, ?_⟩
  · unfold TruckCard.getMaintenanceStatusResult
    simp only [hf]
    cases hd : r.date with
    | absent => simp [JsDate.truthy]
    | invalid => exact absurd hd hdate
    | valid t => simp [JsDate.truthy, JsDate.newDate]
  · intro hnd
    have hstat : ∀ n : Int, (TruckCard.getMaintenanceStatus n truck k).status
        = if TruckCard.isMaintenanceDue n truck .absent
            (if r.mileage.truthy then r.mileage.add (.num i) else .null) = true then Status.due
          else if TruckCard.isMileageApproachingDue truck r.mileage (.num i) = true
            then Status.approaching else Status.ok := by
      intro n
      simp only [TruckCard.getMaintenanceStatus, hf, hi, hgt, hnd, Bool.true_and]
      generalize TruckCard.isMaintenanceDue n truck .absent _ = d
      cases d <;> simp
    have hdue : ∀ n : Int, TruckCard.isMaintenanceDue n truck .absent
        (if r.mileage.truthy then r.mileage.add (.num i) else .null)
        = TruckCard.isMaintenanceDue now truck .absent
          (if r.mileage.truthy then r.mileage.add (.num i) else .null) := by
      intro n
      simp [TruckCard.isMaintenanceDue, JsDate.truthy]
    refine ⟨?_, ?_, ?_⟩
    · intro n
      rw [hstat n, hstat now, hdue n]
    · rw [hstat now]
      have hD : TruckCard.isMaintenanceDue now truck .absent
          (if r.mileage.truthy then r.mileage.add (.num i) else .null) = true ↔
          ∃ c m, truck.currentMileage = .num c ∧ c ≠ 0 ∧ r.mileage = .num m ∧ m ≠ 0
            ∧ m + i ≠ 0 ∧ m + i ≤ c := by
        simp only [TruckCard.isMaintenanceDue]
        cases hc : truck.currentMileage <;> cases hm : r.mileage <;>
          simp [JsNum.truthy, JsDate.truthy, JsNum.ge, JsNum.add, JsNum.toNumber]
        rename_i c m
        by_cases hz : m = 0
        · simp [hz]
        · by_cases hN : m + i = 0
          · simp [hz, hN]
          · by_cases hc0 : c = 0 <;> simp [hz, hN, hc0]
      generalize TruckCard.isMaintenanceDue now truck .absent _ = d at hD ⊢
      cases d
      · simp only [Bool.false_eq_true, if_false, false_iff] at hD ⊢
        constructor
        · intro h
          split_ifs at h
        · intro h
          exact absurd h hD
      · simp only [if_true, true_iff] at hD ⊢
        exact hD
    · rw [hstat now]
      generalize TruckCard.isMaintenanceDue now truck .absent _ = d
      generalize TruckCard.isMileageApproachingDue truck r.mileage (.num i) = a
      cases d <;> cases a <;> simp
  · intro hm
    simp only [TruckCard.getMaintenanceStatus, TruckCard.isMaintenanceDue,
      TruckCard.isMileageApproachingDue, hf, hi, hgt, hm]
    cases hd : r.nextDate <;> simp [JsNum.truthy, JsDate.truthy, JsDate.newDate, isAfter]
  · intro hnd hm
    simp only [TruckCard.getMaintenanceStatus, TruckCard.isMaintenanceDue,
      TruckCard.isMileageApproachingDue, hf, hi, hgt, hm, hnd]
    simp [JsNum.truthy, JsDate.truthy]

/-- Witness for C23: the oil record of the truck at 40000 (reading 34000,
interval 8000) has no next-due date; the call returns. -/
theorem c23_missing_fields_witness :
    TruckCard.getMaintenanceStatusResult 0 (oilTruck 40000 34000 .absent) "oil"
      = .ok (TruckCard.getMaintenanceStatus 0 (oilTruck 40000 34000 .absent) "oil") :=
  (c23_missing_fields 0 (oilTruck 40000 34000 .absent) "oil" (oilRecord 34000 .absent) 8000
    (by decide) (by decide) (by decide) (by decide)).1

/-! ### The editors -/

theorem odometerOrZero_num (t : Truck) (v : Int) (h : t.currentMileage = .num v) :
    t.odometerOrZero = v := by
  unfold Truck.odometerOrZero
  rw [h]
  by_cases hv : v = 0 <;> simp [JsNum.or, JsNum.truthy, JsNum.compareValue, JsNum.toNumber, hv]

/-- C24: the editor operations never lower the odometer (a missing reading
counting as 0). `handleUpdateMileage` stores nothing for a value below the
current reading, and after it the stored reading is at least the one before;
`handleSubmit` of the maintenance form stores the maximum of the service
mileage and the current reading, and after it the stored reading is at least
the one before. -/
theorem c24_odometer_never_lowered (truck : Truck) :
    (∀ v : Int, v < truck.odometerOrZero →
        TruckDetail.handleUpdateMileage truck (some v) = truck) ∧
      (∀ mileageValue : Option Int,
        truck.odometerOrZero
          ≤ (TruckDetail.handleUpdateMileage truck mileageValue).odometerOrZero) ∧
      (∀ (type : String) (date nextDate : JsDate) (mileage : Int), 0 ≤ mileage →
        (MaintenanceForm.handleSubmit truck type date nextDate (some mileage)).currentMileage
          = .num (max mileage truck.odometerOrZero)) ∧
      (∀ (type : String) (date nextDate : JsDate) (mileage : Option Int),
        truck.odometerOrZero
          ≤ (MaintenanceForm.handleSubmit truck type date nextDate mileage).odometerOrZero) := by
  obtain ⟨c, hc⟩ := or_zero_num truck.currentMileage
  have hodo : truck.odometerOrZero = c := by
    unfold Truck.odometerOrZero
    rw [hc]
    rfl
  have hlt : ∀ v : Int, (JsNum.num v).lt (truck.currentMileage.or (.num 0)) = decide (v < c) := by
    intro v
    rw [hc]
    rfl
  have hmax : ∀ v : Int, (JsNum.num v).max (truck.currentMileage.or (.num 0))
      = .num (max v c) := by
    intro v
    rw [hc]
    rfl
  refine ⟨?_, ?_, ?_, ?_⟩
  · intro v hv
    rw [hodo] at hv
    simp [TruckDetail.handleUpdateMileage, hlt, hv]
  · intro mv
    cases mv with
    | none => simp [TruckDetail.handleUpdateMileage]
    | some v =>
      simp only [TruckDetail.handleUpdateMileage, hlt]
      by_cases hv : v < c
      · simp [hv]
      · have hcm : (if decide (v < c) = true then truck
            else { truck with currentMileage := .num v }).currentMileage = .num v := by
          simp [hv]
        rw [odometerOrZero_num _ v hcm, hodo]
        omega
  · intro type date nextDate v hv
    have hneg : ¬ v < 0 := by omega
    simp only [MaintenanceForm.handleSubmit, hneg, if_false, hmax, hodo]
  · intro type date nextDate mv
    cases mv with
    | none => simp [MaintenanceForm.handleSubmit]
    | some v =>
      by_cases hv : v < 0
      · simp [MaintenanceForm.handleSubmit, hv]
      · have hcm : (MaintenanceForm.handleSubmit truck type date nextDate
            (some v)).currentMileage = .num (max v c) := by
          simp only [MaintenanceForm.handleSubmit, hv, if_false, hmax]
        rw [odometerOrZero_num _ (max v c) hcm, hodo]
        omega

/-! ### The card and the detail page -/

theorem detailStatus_eq_cardStatus (now : Int) (truck : Truck) (k : String)
    (h : List MaintenanceRecord) (c : Int)
    (hunit : truck.distanceUnit = some "miles" ∨ truck.distanceUnit = some "km")
    (hh : truck.maintenanceHistory = some h)
    (hc : truck.currentMileage = .num c) (hcpos : 0 < c)
    (hI : TruckDetail.intervalFor truck k = TruckCard.intervalFor truck k) :
    (TruckDetail.getMaintenanceStatus now truck k).status
      = (TruckCard.getMaintenanceStatus now truck k).status := by
  have hc0 : c ≠ 0 := by omega
  have hfind : truck.findRecord k = h.find? (fun m => m.type == k) := by
    simp [Truck.findRecord, hh]
  simp only [TruckDetail.getMaintenanceStatus, TruckCard.getMaintenanceStatus,
    TruckCard.isMaintenanceDue, TruckCard.isMileageApproachingDue, TruckCard.distanceUnit,
    hh, hI, hfind, hc]
  cases hf : h.find? (fun m => m.type == k) with
  | none =>
    by_cases hg : (TruckCard.intervalFor truck k).gt (.num 0) = true <;> simp [hg]
  | some r =>
    simp only []
    by_cases hg : (TruckCard.intervalFor truck k).gt (.num 0) = true
    · obtain ⟨i, hi⟩ : ∃ i, TruckCard.intervalFor truck k = .num i := by
        cases hi : TruckCard.intervalFor truck k <;>
          simp [hi, JsNum.gt, JsNum.toNumber] at hg
        exact ⟨_, rfl⟩
      have hipos : 0 < i := by simpa [hi, JsNum.gt, JsNum.toNumber] using hg
      have hi0 : i ≠ 0 := by omega
      by_cases hmt : r.mileage.truthy = true
      · obtain ⟨m, hm⟩ : ∃ m, r.mileage = .num m := by
          cases hm : r.mileage <;> simp [hm, JsNum.truthy] at hmt
          exact ⟨_, rfl⟩
        have hm0 : m ≠ 0 := by simpa [hm, JsNum.truthy] using hmt
        have hcn : ¬ c < 0 := by omega
        simp only [hi, hm]
        rcases hunit with hu | hu <;> cases hd : r.nextDate <;>
          by_cases hN : m + i = 0 <;> by_cases h1 : m + i ≤ c <;>
          by_cases h2 : m + i ≤ c + 500 <;> by_cases h3 : m + i ≤ c + 800 <;>
          simp [hu, JsNum.truthy, JsDate.truthy, JsDate.newDate, isAfter, JsNum.ge, JsNum.gt,
            JsNum.lt, JsNum.add, JsNum.toNumber, hc0, hm0, hi0, hipos, hN, h1, h2, h3, hcn]
      · have hmf : r.mileage.truthy = false := by simpa using hmt
        simp only [hg, hmf]
        cases hd : r.nextDate <;>
          simp [JsNum.truthy, JsDate.truthy, JsDate.newDate, isAfter]
    · have hgf : (TruckCard.intervalFor truck k).gt (.num 0) = false := by simpa using hg
      simp only [hgf]
      cases hd : r.nextDate <;>
        simp [JsNum.truthy, JsDate.truthy, JsDate.newDate, isAfter]

/-- C26 (code evaluated at the failing input): for a km truck with its four
intervals set and no maintenance history (`null`), the card returns `due` for
oil, and the list's and the dashboard's checks hold for it, while the detail
page returns `unknown`. -/
theorem c26_null_history_detail_unknown :
    (allIntervalsTruck none).distanceUnit = some "km" ∧
      ((allIntervalsTruck none).oilChangeMileageInterval = .num 8000
        ∧ (allIntervalsTruck none).airFilterMileageInterval = .num 24000
        ∧ (allIntervalsTruck none).fuelFilterMileageInterval = .num 40000
        ∧ (allIntervalsTruck none).dpfCleaningMileageInterval = .num 160000) ∧
      (TruckCard.getMaintenanceStatus 0 (allIntervalsTruck none) "oil").status = Status.due ∧
      TruckList.checkMaintenanceTypeDue 0 (allIntervalsTruck none) "oil"
          (allIntervalsTruck none).oilChangeMileageInterval = true ∧
      Dashboard.checkMaintenanceTypeDue 0 (allIntervalsTruck none) "oil"
          (allIntervalsTruck none).oilChangeMileageInterval = true ∧
      (TruckDetail.getMaintenanceStatus 0 (allIntervalsTruck none) "oil").status
        = Status.unknown ∧
      (TruckCard.getMaintenanceStatus 0 (allIntervalsTruck none) "oil").status
        ≠ (TruckDetail.getMaintenanceStatus 0 (allIntervalsTruck none) "oil").status := by
  decide

/-- Away from that input the two evaluators agree: for a truck whose distance
unit is miles or km, whose four intervals are positive, whose maintenance
history is present (possibly empty) and whose odometer is a positive number,
the card and the detail page return the same status for every type and every
`now`. -/
theorem card_detail_agree (now : Int) (truck : Truck) (k : String)
    (h : List MaintenanceRecord) (c io ia iu ip : Int)
    (hunit : truck.distanceUnit = some "miles" ∨ truck.distanceUnit = some "km")
    (ho : truck.oilChangeMileageInterval = .num io) (hio : 0 < io)
    (ha : truck.airFilterMileageInterval = .num ia) (hia : 0 < ia)
    (hu : truck.fuelFilterMileageInterval = .num iu) (hiu : 0 < iu)
    (hp : truck.dpfCleaningMileageInterval = .num ip) (hip : 0 < ip)
    (hh : truck.maintenanceHistory = some h)
    (hc : truck.currentMileage = .num c) (hcpos : 0 < c) :
    (TruckCard.getMaintenanceStatus now truck k).status
      = (TruckDetail.getMaintenanceStatus now truck k).status := by
  have hor : ∀ (n : Int) (d : JsNum), 0 < n → (JsNum.num n).or d = .num n := by
    intro n d hn
    have : n ≠ 0 := by omega
    simp [JsNum.or, JsNum.truthy, this]
  have hI : TruckDetail.intervalFor truck k = TruckCard.intervalFor truck k := by
    simp only [TruckDetail.intervalFor, TruckCard.intervalFor, ho, ha, hu, hp,
      hor io _ hio, hor ia _ hia, hor iu _ hiu, hor ip _ hip]
  exact (detailStatus_eq_cardStatus now truck k h c hunit hh hc hcpos hI).symm

/-- Example of the agreement on a history with a record: the km truck at 42000
with an oil record at 34000 is `due` on both, and with the record at 34500
(next-due 42500, 500 km ahead) it is `approaching` on both. -/
theorem card_detail_agree_example :
    ((TruckCard.getMaintenanceStatus 0 (allIntervalsTruck (some [oilRecord 34000 .absent]))
          "oil").status
        = (TruckDetail.getMaintenanceStatus 0 (allIntervalsTruck (some [oilRecord 34000 .absent]))
          "oil").status) ∧
      (TruckDetail.getMaintenanceStatus 0 (allIntervalsTruck (some [oilRecord 34000 .absent]))
          "oil").status = Status.due ∧
      (TruckDetail.getMaintenanceStatus 0 (allIntervalsTruck (some [oilRecord 34500 .absent]))
          "oil").status = Status.approaching ∧
      (TruckCard.getMaintenanceStatus 0 (allIntervalsTruck (some [oilRecord 34500 .absent]))
          "oil").status = Status.approaching :=
  ⟨card_detail_agree 0 (allIntervalsTruck (some [oilRecord 34000 .absent])) "oil"
      [oilRecord 34000 .absent] 42000 8000 24000 40000 160000
      (Or.inr rfl) rfl (by decide) rfl (by decide) rfl (by decide) rfl (by decide) rfl rfl
      (by decide),
    by decide, by decide, by decide⟩

/-! ### Unit change -/

theorem detail_nextMileage (now : Int) (t : Truck) (k : String) (r : MaintenanceRecord)
    (j m : Int) (hf : t.findRecord k = some r) (hj : TruckDetail.intervalFor t k = .num j)
    (hjpos : 0 < j) (hm : r.mileage = .num m) (hm0 : m ≠ 0) :
    (TruckDetail.getMaintenanceStatus now t k).nextMileage
      = NextMileage.value (.num (m + j)) := by
  cases hh : t.maintenanceHistory with
  | none => simp [Truck.findRecord, hh] at hf
  | some h =>
    have hfind : h.find? (fun x => x.type == k) = some r := by
      simpa [Truck.findRecord, hh] using hf
    simp only [TruckDetail.getMaintenanceStatus, hh, hfind, hj, hm]
    simp [JsNum.gt, JsNum.truthy, JsNum.add, JsNum.toNumber, hjpos, hm0]

theorem intervalFor_after_unit_change (truck : Truck) (k : String) (i : Int)
    (hk : k ∈ maintenanceKinds) (hi : truck.intervalField k = .num i) :
    (truck.distanceUnit = some "miles" → 0 < convertMilesToKm i →
      TruckDetail.intervalFor (TruckDetail.handleUpdateDistanceUnit truck "km") k
        = .num (convertMilesToKm i)) ∧
    (truck.distanceUnit = some "km" → 0 < convertKmToMiles i →
      TruckDetail.intervalFor (TruckDetail.handleUpdateDistanceUnit truck "miles") k
        = .num (convertKmToMiles i)) := by
  have hor : ∀ (n : Int) (d : JsNum), 0 < n → (JsNum.num n).or d = .num n := by
    intro n d hn
    have : n ≠ 0 := by omega
    simp [JsNum.or, JsNum.truthy, this]
  simp only [maintenanceKinds, List.mem_cons, List.mem_singleton, List.not_mem_nil,
    or_false] at hk
  refine ⟨?_, ?_⟩
  · intro hu hpos
    rcases hk with rfl | rfl | rfl | rfl <;>
      simp [Truck.intervalField] at hi <;>
      simp [TruckDetail.intervalFor, TruckDetail.handleUpdateDistanceUnit, hu, hi,
        JsNum.roundTimesFactor, JsNum.toNumber, hor _ _ hpos]
  · intro hu hpos
    rcases hk with rfl | rfl | rfl | rfl <;>
      simp [Truck.intervalField] at hi <;>
      simp [TruckDetail.intervalFor, TruckDetail.handleUpdateDistanceUnit, hu, hi,
        JsNum.roundOverFactor, JsNum.toNumber, hor _ _ hpos]

/-- C30: `handleUpdateDistanceUnit` leaves the maintenance history, the
safety-inspection dates and the year as they were, whatever unit is chosen, so
every record found before is found unchanged afterwards; and after a change
from miles to km (or from km to miles) the detail page computes the next-due
distance of a record as its unconverted reading plus the converted interval. -/
theorem c30_unit_change_frame (truck : Truck) (distanceUnit : String) :
    (TruckDetail.handleUpdateDistanceUnit truck distanceUnit).maintenanceHistory
        = truck.maintenanceHistory ∧
      (TruckDetail.handleUpdateDistanceUnit truck distanceUnit).safetyInspectionDate
        = truck.safetyInspectionDate ∧
      (TruckDetail.handleUpdateDistanceUnit truck distanceUnit).safetyInspectionExpiryDate
        = truck.safetyInspectionExpiryDate ∧
      (TruckDetail.handleUpdateDistanceUnit truck distanceUnit).year = truck.year ∧
      (∀ k, (TruckDetail.handleUpdateDistanceUnit truck distanceUnit).findRecord k
        = truck.findRecord k) ∧
      (∀ (now : Int) (k : String) (r : MaintenanceRecord) (i m : Int),
        k ∈ maintenanceKinds → truck.intervalField k = .num i → 0 < i →
        truck.findRecord k = some r → r.mileage = .num m → m ≠ 0 →
        (truck.distanceUnit = some "miles" → distanceUnit = "km" →
          (TruckDetail.getMaintenanceStatus now
            (TruckDetail.handleUpdateDistanceUnit truck distanceUnit) k).nextMileage
            = NextMileage.value (.num (m + convertMilesToKm i))) ∧
        (truck.distanceUnit = some "km" → distanceUnit = "miles" →
          (TruckDetail.getMaintenanceStatus now
            (TruckDetail.handleUpdateDistanceUnit truck distanceUnit) k).nextMileage
            = NextMileage.value (.num (m + convertKmToMiles i)))) := by
  have hframe : (TruckDetail.handleUpdateDistanceUnit truck distanceUnit).maintenanceHistory
      = truck.maintenanceHistory := by
    unfold TruckDetail.handleUpdateDistanceUnit
    split_ifs <;> rfl
  refine ⟨hframe, ?_, ?_, ?_, ?_, ?_⟩
  · unfold TruckDetail.handleUpdateDistanceUnit
    split_ifs <;> rfl
  · unfold TruckDetail.handleUpdateDistanceUnit
    split_ifs <;> rfl
  · unfold TruckDetail.handleUpdateDistanceUnit
    split_ifs <;> rfl
  · intro k
    simp only [Truck.findRecord, hframe]
  · intro now k r i m hk hi hipos hf hm hm0
    have h1 : 0 < convertMilesToKm i := by
      unfold convertMilesToKm mathRound
      omega
    have h2 : 0 < convertKmToMiles i := by
      unfold convertKmToMiles mathRound
      omega
    refine ⟨?_, ?_⟩
    · intro hu hd
      subst hd
      have hf2 : (TruckDetail.handleUpdateDistanceUnit truck "km").findRecord k = some r := by
        simp only [Truck.findRecord, hframe]
        exact hf
      exact detail_nextMileage now _ k r _ m hf2
        ((intervalFor_after_unit_change truck k i hk hi).1 hu h1) h1 hm hm0
    · intro hu hd
      subst hd
      have hf2 : (TruckDetail.handleUpdateDistanceUnit truck "miles").findRecord k
          = some r := by
        simp only [Truck.findRecord, hframe]
        exact hf
      exact detail_nextMileage now _ k r _ m hf2
        ((intervalFor_after_unit_change truck k i hk hi).2 hu h2) h2 hm hm0

/-- Witness for C30: the miles truck at 32000 with oil interval 5000 and an
oil record at 30000, switched to km: the odometer becomes 51499 and the
interval 8047, the record keeps its reading 30000, and the next-due distance
is computed as 30000 + 8047. -/
theorem c30_unit_change_frame_witness :
    (TruckDetail.getMaintenanceStatus 0 (TruckDetail.handleUpdateDistanceUnit milesTruck "km")
        "oil").nextMileage = NextMileage.value (.num (30000 + convertMilesToKm 5000)) ∧
      (TruckDetail.handleUpdateDistanceUnit milesTruck "km").currentMileage = .num 51499 ∧
      (TruckDetail.handleUpdateDistanceUnit milesTruck "km").oilChangeMileageInterval
        = .num 8047 ∧
      (TruckDetail.handleUpdateDistanceUnit milesTruck "km").maintenanceHistory
        = some [oilRecord 30000 .absent] :=
  ⟨((c30_unit_change_frame milesTruck "km").2.2.2.2.2 0 "oil" (oilRecord 30000 .absent) 5000
      30000 (by decide) (by decide) (by decide) (by decide) (by decide) (by decide)).1
      (by decide) rfl,
    by decide, by decide, by decide⟩
